import Mathlib

/-!
# Expense tracker (`src/code.c`): shallow embedding and verified properties

The program is a command dispatcher over an SQLite database.  One invocation
reads its argument vector, possibly one line of standard input (the
administrator password), the clock, and talks to the storage engine.

Modelling conventions.

* A C string is a Lean `String`, one `Char` per byte, without the terminating
  NUL; `strlen` is `String.length`.
* Everything outside the process is gathered in `Env`: the account name, the
  line on standard input, the clock and the answers of the file system and of
  SQLite.  The three statements that one invocation can pass to
  `sqlite3_exec` (the test query, the expense statement, the audit statement)
  have pairwise different texts, so an answer that depends on the statement
  text only loses no behaviour of the engine within one invocation.
* A run is a value of `Res`: either the function returned (`ok`) or the
  process ended (`stop`), each with the list of observable events in the order
  they happened.  Writing past the end of a fixed buffer, or formatting with
  a directive that has no matching argument, ends the run in
  `Outcome.undefined`.
* `int admin` only ever holds 0 or 1 and is a `Bool`; lengths and indices are
  natural numbers (the sums of `strlen` values of strings that live in memory
  are far below `2^64`, and `argc` is far below `2^31`).
-/

namespace Expense

/-! ## Constants -/

def ADMIN_PW : String := ""
def DB_FILENAME : String := "expenses.sqlite"
def LIST_USER_SQL : String := "SELECT DISTINCT username FROM expenses"
def ADD_EXP_SQL : String :=
  "INSERT INTO expenses (time, username, description, amount) VALUES (%li, \"%s\", \"%s\", %s)"
def DEL_EXP_SQL : String := "DELETE FROM expenses WHERE username=\"%s\" AND id=%s"
def LIST_EXP_SQL : String := "SELECT * FROM expenses WHERE username=\"%s\""
def TEST_EXP_SQL : String := "SELECT * FROM expenses"
def AUDIT_LOG_SQL : String :=
  "INSERT INTO audit_log (time, admin, username, command, arguments) VALUES (%li, %i, \"%s\", \"%s\", \"%s\")"
def MAX_QUERY_LEN : Nat := 2048
def MAX_TIME_LEN : Nat := 20

/-- The size of `buf` in `authenticate`. -/
def PW_BUF_LEN : Nat := 256

/-! ## Observable events, outcomes, runs -/

/-- One row of the `expenses` table as `list_expenses` reads it (columns 0 to 4). -/
structure Row where
  id : Int
  time : Int
  username : String
  description : String
  amount : String
  deriving DecidableEq, Repr

/-- What an invocation does that is visible from outside, in order. -/
inductive Event where
  /-- Text written to standard output by `puts`, `printf` or `fputs`. -/
  | out (text : String)
  /-- The call `gets(buf)`. -/
  | gets
  /-- The call `setuid(geteuid())`. -/
  | setuid
  /-- The call `access(filename, F_OK)`. -/
  | access (filename : String)
  /-- The call `sqlite3_open(filename, &db)`. -/
  | sqlite3_open (filename : String)
  /-- The call `sqlite3_exec(db, sql, ...)`. -/
  | sqlite3_exec (sql : String)
  /-- The call `sqlite3_prepare_v2(db, sql, ...)`. -/
  | sqlite3_prepare_v2 (sql : String)
  /-- A row printed by the `sqlite3_step` loop of `list_expenses`. -/
  | row (r : Row)
  /-- The call `sqlite3_close(db)`. -/
  | sqlite3_close
  /-- The call `fopen(filename, "r")` of `open_db`. -/
  | fopen (filename : String)
  /-- The dump of the file contents by the `fgets`/`fputs` loop of `open_db`. -/
  | dump (filename : String)
  deriving DecidableEq, Repr

/-- How a process ends. -/
inductive Outcome where
  /-- The call `exit(status)`. -/
  | exit (status : Int)
  /-- Undefined behaviour of the C program (a write past the end of a buffer,
  a read of an unset buffer). -/
  | undefined
  deriving DecidableEq, Repr

/-- The result of running a piece of the program: it returned a value, or it
ended the process; both with the events it produced. -/
inductive Res (α : Type) where
  | ok (val : α) (trace : List Event)
  | stop (o : Outcome) (trace : List Event)
  deriving DecidableEq, Repr

namespace Res

/-- The events of a run. -/
def trace {α : Type} : Res α → List Event
  | ok _ tr => tr
  | stop _ tr => tr

/-- Sequencing: the second part runs only when the first returned. -/
def bind {α β : Type} (m : Res α) (f : α → Res β) : Res β :=
  match m with
  | stop o tr => stop o tr
  | ok a tr =>
    match f a with
    | ok b tr2 => ok b (tr ++ tr2)
    | stop o tr2 => stop o (tr ++ tr2)

instance : Monad Res where
  pure a := ok a []
  bind := bind

end Res

/-- Record one event. -/
def emit (e : Event) : Res Unit := .ok () [e]

/-- Undefined behaviour: the run ends here with nothing guaranteed. -/
def undefined {α : Type} : Res α := .stop .undefined []

/-! ## The environment -/

/-- Everything the process gets from outside. -/
structure Env where
  /-- The field `pw_name` of `getpwuid(getuid())`. -/
  pw_name : String
  /-- The line `gets` reads (without the newline); `none` at end of file. -/
  stdin : Option String
  /-- The value of `time(0)`. -/
  now : Int
  /-- The type `time_t` is a 64-bit signed `long`. -/
  now_range : -2 ^ 63 ≤ now ∧ now < 2 ^ 63
  /-- Whether `access(filename, F_OK)` is not -1. -/
  access : String → Bool
  /-- Whether `sqlite3_open` answers `SQLITE_OK`. -/
  sqlite3_open : String → Bool
  /-- The answer of `sqlite3_exec`: `none` is `SQLITE_OK`, `some msg` is an
  error with its message. -/
  sqlite3_exec : String → Option String
  /-- Whether `sqlite3_prepare_v2` answers `SQLITE_OK`. -/
  sqlite3_prepare_v2 : String → Bool
  /-- The rows `sqlite3_step` yields for a prepared `LIST_EXP_SQL` statement. -/
  expense_rows : String → List Row
  /-- The rows (column 0) `sqlite3_step` yields for `LIST_USER_SQL`. -/
  user_rows : List String
  /-- Whether `fopen(filename, "r")` succeeds. -/
  fopen : String → Bool

/-! ## `sprintf` -/

/-- An argument of `sprintf`. -/
inductive Arg where
  | long (v : Int)
  | int (v : Int)
  | str (s : String)

/-- The output of a format string: `%li`, `%i` and `%s` consume one argument
of the matching kind, every other character is copied.  `none` when a
directive finds no argument of its kind. -/
def format : List Char → List Arg → Option (List Char)
  | [], _ => some []
  | '%' :: 'l' :: 'i' :: fmt, .long v :: args =>
    (format fmt args).map fun r => (Int.repr v).data ++ r
  | '%' :: 'i' :: fmt, .int v :: args =>
    (format fmt args).map fun r => (Int.repr v).data ++ r
  | '%' :: 's' :: fmt, .str s :: args =>
    (format fmt args).map fun r => s.data ++ r
  | '%' :: _, _ => none
  | c :: fmt, args => (format fmt args).map fun r => c :: r

/-- The call `sprintf(buf, fmt, args...)` into a buffer of `cap` bytes: the
text and its terminator must fit. -/
def sprintf (cap : Nat) (fmt : String) (args : List Arg) : Res String :=
  match format fmt.data args with
  | none => undefined
  | some r => if r.length + 1 ≤ cap then pure (String.mk r) else undefined

/-- The call `printf(fmt, args...)`. -/
def printf (fmt : String) (args : List Arg) : Res Unit :=
  match format fmt.data args with
  | none => undefined
  | some r => emit (.out (String.mk r))

/-- The call `puts(s)`. -/
def puts (s : String) : Res Unit := emit (.out (s ++ "\n"))

/-- The call `exit(status)`. -/
def exit {α : Type} (status : Int) : Res α := .stop (.exit status) []

/-- The C function `strlen`. -/
def strlen (s : String) : Nat := s.length

/-- The element `argv[i]`; every read in the program is guarded by a bound
check on `i`. -/
def arg (argv : List String) (i : Nat) : String := argv.getD i ""

/-! ## The functions of `code.c` -/

def usage1 : String :=
  "This program allows users to track their expenses. It has commands for adding, viewing, and deleting\n" ++
  "expenses. Administrators may add, view, or delete expenses for any user. The program also keeps a log\n" ++
  "of all changes to facilitate offline auditing.\n"

def usage2 : String :=
  "  Commands:\n" ++
  "    --help                           Displays this message\n" ++
  "    --add <Description> <Amount>     Adds an expense for the current user\n" ++
  "    --list                           Lists all expenses for the current user\n" ++
  "    --del <ID>                       Deletes the current user's expense with the given ID\n" ++
  "\n" ++
  "Additional commands are available to administrators. See the developer docs for more information."

/-- The flag `found` of `help`: set when `argc == 1` or some `argv[i]`,
`1 ≤ i < argc`, is `--help`. -/
def help_found (argv : List String) : Bool :=
  argv.length == 1 || (argv.drop 1).any fun a => a == "--help"

/-- The function `help`: prints the usage text and exits 0 when `found`. -/
def help (argv : List String) : Res Unit := do
  if help_found argv then
    puts usage1
    printf "Usage: %s [--admin] <--command> [arguments]\n" [.str (arg argv 0)]
    puts usage2
    exit 0

/-- The function `authenticate`: `gets` into `buf[256]`, then `strcmp` with
`ADMIN_PW`.  A line of 256 bytes or more is written past the end of `buf`; at
end of file `buf` is left unset. -/
def authenticate (env : Env) : Res Bool := do
  emit (.out "Enter the administrator password: ")
  emit .gets
  match env.stdin with
  | none => undefined
  | some line =>
    if strlen line + 1 ≤ PW_BUF_LEN then
      if line = ADMIN_PW then pure true else pure false
    else undefined

/-- The function `error`. -/
def error {α : Type} (msg : String) : Res α := do
  printf "Error: %s\n" [.str msg]
  exit (-1)

/-- The function `sql_error`. -/
def sql_error {α : Type} (msg : String) : Res α := do
  emit .sqlite3_close
  printf "Error from sqlite: %s\n" [.str msg]
  exit (-1)

/-- The function `open_db`. -/
def open_db (env : Env) (filename : String) : Res Unit := do
  emit (.access filename)
  if !env.access filename then
    error "cannot open the specified database file"
  emit (.sqlite3_open filename)
  if !env.sqlite3_open filename then
    error "cannot open the specified database file"
  emit (.sqlite3_exec TEST_EXP_SQL)
  if (env.sqlite3_exec TEST_EXP_SQL).isSome then
    emit .sqlite3_close
    emit (.fopen filename)
    if !env.fopen filename then
      error "cannot open the specified database file"
    printf "%s does not appear to be a valid sqlite3 database file.\n" [.str filename]
    puts "To aid in debugging, here are the contents of the specified file:"
    emit (.dump filename)
    exit (-1)

/-- The function `audit_log`. -/
def audit_log (env : Env) (t : Int) (admin : Bool) (username cmd args : String) : Res Unit := do
  if strlen AUDIT_LOG_SQL + MAX_TIME_LEN + 1 + strlen username + strlen cmd + strlen args
      ≥ MAX_QUERY_LEN - 1 then
    error "sorry, the audit log entry is too long"
  let buf ← sprintf MAX_QUERY_LEN AUDIT_LOG_SQL
    [.long t, .int (if admin then 1 else 0), .str username, .str cmd, .str args]
  emit (.sqlite3_exec buf)
  match env.sqlite3_exec buf with
  | some err => sql_error err
  | none => pure ()

/-- The function `add_expense`; `argc` is the length of `argv`. -/
def add_expense (env : Env) (i : Nat) (argv : List String) (username : String) (admin : Bool) :
    Res Unit := do
  let argc := argv.length
  let t := env.now
  let (username, desc, amount) ←
    if !admin then do
      if i + 1 ≥ argc then error "insufficient arguments for the --add command"
      pure (username, arg argv i, arg argv (i + 1))
    else do
      if i + 2 ≥ argc then error "insufficient arguments for the --add command"
      pure (arg argv i, arg argv (i + 1), arg argv (i + 2))
  if strlen ADD_EXP_SQL + MAX_TIME_LEN + strlen username + strlen desc + strlen amount
      ≥ MAX_QUERY_LEN - 1 then
    error "sorry, the length of your expense is too long"
  let buf ← sprintf MAX_QUERY_LEN ADD_EXP_SQL [.long t, .str username, .str desc, .str amount]
  emit (.sqlite3_exec buf)
  match env.sqlite3_exec buf with
  | some err => sql_error err
  | none => pure ()
  let buf ← sprintf MAX_QUERY_LEN "%s %s" [.str desc, .str amount]
  audit_log env t admin username "add" buf

def list_header : String :=
  "   ID                Date/Time             User                              Description     Amount\n"

/-- The function `list_expenses`; the header is the output of
`printf("%5s %24s %16s %40s %10s\n", ...)`, and each row the step loop prints
is one `Event.row`. -/
def list_expenses (env : Env) (i : Nat) (argv : List String) (username : String) (admin : Bool) :
    Res Unit := do
  let argc := argv.length
  let username ←
    if admin then do
      if i ≥ argc then error "insufficient arguments for the --list command"
      pure (arg argv i)
    else pure username
  if strlen LIST_EXP_SQL + strlen username ≥ MAX_QUERY_LEN - 1 then
    error "sorry, the length of your username is too long"
  let buf ← sprintf MAX_QUERY_LEN LIST_EXP_SQL [.str username]
  emit (.sqlite3_prepare_v2 buf)
  if !env.sqlite3_prepare_v2 buf then
    emit .sqlite3_close
    error "unable to execute --list query"
  emit (.out list_header)
  Res.ok () ((env.expense_rows buf).map Event.row)

/-- The function `del_expense`. -/
def del_expense (env : Env) (i : Nat) (argv : List String) (username : String) (admin : Bool) :
    Res Unit := do
  let argc := argv.length
  let t := env.now
  let (username, id) ←
    if !admin then do
      if i ≥ argc then error "insufficient arguments for the --del command"
      pure (username, arg argv i)
    else do
      if i + 1 ≥ argc then error "insufficient arguments for the --del command"
      pure (arg argv i, arg argv (i + 1))
  if strlen DEL_EXP_SQL + strlen username + strlen id ≥ MAX_QUERY_LEN - 1 then
    error "sorry, the length of your expense (username + description + amount) is too long"
  let buf ← sprintf MAX_QUERY_LEN DEL_EXP_SQL [.str username, .str id]
  emit (.sqlite3_exec buf)
  match env.sqlite3_exec buf with
  | some err => sql_error err
  | none => pure ()
  let buf ← sprintf MAX_QUERY_LEN "%s" [.str id]
  audit_log env t admin username "del" buf

/-- The function `list_users`. -/
def list_users (env : Env) (admin : Bool) : Res Unit := do
  if !admin then error "you must have administrator access to run this command"
  emit (.sqlite3_prepare_v2 LIST_USER_SQL)
  if !env.sqlite3_prepare_v2 LIST_USER_SQL then
    emit .sqlite3_close
    error "unable to execute --listusers query"
  Res.ok () (env.user_rows.map fun name => Event.out (name ++ "\n"))

/-- The variables `admin`, `i` and `db_filename` of `main` once the options
before the command are read. -/
structure Session where
  admin : Bool
  i : Nat
  db_filename : String
  deriving DecidableEq, Repr

/-- Lines 357 to 362 of `main`: the `--admin` option. -/
def main_admin (env : Env) (argv : List String) : Res Session := do
  if arg argv 1 = "--admin" then
    if !(← authenticate env) then error "incorrect password"
    pure ⟨true, 2, DB_FILENAME⟩
  else pure ⟨false, 1, DB_FILENAME⟩

/-- Lines 364 to 371 of `main`: the `--db` option. -/
def main_db (argv : List String) (s : Session) : Res Session := do
  let argc := argv.length
  if s.i < argc ∧ arg argv s.i = "--db" then
    if !s.admin then error "only administrators may use the --db command"
    if s.i + 1 = argc then error "insufficient arguments supplied for --db command"
    pure ⟨s.admin, s.i + 2, arg argv (s.i + 1)⟩
  else pure s

/-- Lines 373 to 389 of `main`: open the database, run the command, close. -/
def main_command (env : Env) (argv : List String) (username : String) (s : Session) :
    Res Int := do
  let argc := argv.length
  if s.i < argc then
    open_db env s.db_filename
    if arg argv s.i = "--add" then add_expense env (s.i + 1) argv username s.admin
    else if arg argv s.i = "--list" then list_expenses env (s.i + 1) argv username s.admin
    else if arg argv s.i = "--del" then del_expense env (s.i + 1) argv username s.admin
    else if arg argv s.i = "--listusers" then list_users env s.admin
    else error "unknown command supplied"
    emit .sqlite3_close
  else error "no command supplied"
  pure 0

/-- The options of `main` (lines 357 to 371). -/
def main_session (env : Env) (argv : List String) : Res Session := do
  let s ← main_admin env argv
  main_db argv s

/-- The function `main`, run with `argv = prog :: args`. -/
def main (env : Env) (prog : String) (args : List String) : Res Int := do
  let argv := prog :: args
  help argv
  let username := env.pw_name
  emit .setuid
  let s ← main_session env argv
  main_command env argv username s

/-! ## Rendered statements -/

/-- The text `sprintf` writes (empty when a directive has no argument). -/
def render (fmt : String) (args : List Arg) : String :=
  String.mk ((format fmt.data args).getD [])

/-- The statement `audit_log` builds. -/
def audit_sql (t : Int) (admin : Bool) (u c a : String) : String :=
  render AUDIT_LOG_SQL [.long t, .int (if admin then 1 else 0), .str u, .str c, .str a]

/-- The statement `add_expense` builds. -/
def add_sql (t : Int) (u d a : String) : String :=
  render ADD_EXP_SQL [.long t, .str u, .str d, .str a]

/-- The statement `del_expense` builds. -/
def del_sql (u id : String) : String := render DEL_EXP_SQL [.str u, .str id]

/-- The statement `list_expenses` builds. -/
def list_sql (u : String) : String := render LIST_EXP_SQL [.str u]

/-- The length check of `audit_log` (line 162) rejects the entry. -/
abbrev audit_too_long (u c a : String) : Prop :=
  strlen AUDIT_LOG_SQL + MAX_TIME_LEN + 1 + strlen u + strlen c + strlen a ≥ MAX_QUERY_LEN - 1

/-- The length check of `add_expense` (line 201) rejects the expense. -/
abbrev add_too_long (u d a : String) : Prop :=
  strlen ADD_EXP_SQL + MAX_TIME_LEN + strlen u + strlen d + strlen a ≥ MAX_QUERY_LEN - 1

/-- The length check of `del_expense` (line 297) rejects the request. -/
abbrev del_too_long (u id : String) : Prop :=
  strlen DEL_EXP_SQL + strlen u + strlen id ≥ MAX_QUERY_LEN - 1

/-- The length check of `list_expenses` (line 237) rejects the username. -/
abbrev list_too_long (u : String) : Prop :=
  strlen LIST_EXP_SQL + strlen u ≥ MAX_QUERY_LEN - 1

/-- What `sprintf` writes with these arguments fits, with its terminator, a
buffer of `MAX_QUERY_LEN` bytes. -/
def fits_query_buffer (fmt : String) (args : List Arg) : Prop :=
  ∃ r, format fmt.data args = some r ∧ r.length + 1 ≤ MAX_QUERY_LEN

/-- A run preceded by the events `tr`. -/
def Res.after {α : Type} (tr : List Event) : Res α → Res α
  | .ok a t2 => .ok a (tr ++ t2)
  | .stop o t2 => .stop o (tr ++ t2)

/-- The events of `sql_error` after a rejected `sqlite3_exec sql`. -/
def rejected {α : Type} (sql err : String) : Res α :=
  .stop (.exit (-1)) [.sqlite3_exec sql, .sqlite3_close, .out ("Error from sqlite: " ++ err ++ "\n")]

/-- Closed form of `audit_log` (see `audit_log_eq`). -/
def audit_body (env : Env) (t : Int) (admin : Bool) (u c a : String) : Res Unit :=
  if strlen AUDIT_LOG_SQL + MAX_TIME_LEN + 1 + strlen u + strlen c + strlen a
      ≥ MAX_QUERY_LEN - 1 then
    .stop (.exit (-1)) [.out "Error: sorry, the audit log entry is too long\n"]
  else
    match env.sqlite3_exec (audit_sql t admin u c a) with
    | some err => rejected (audit_sql t admin u c a) err
    | none => .ok () [.sqlite3_exec (audit_sql t admin u c a)]

/-- Closed form of `add_expense` once its three strings are read
(see `add_expense_user`, `add_expense_admin`). -/
def add_body (env : Env) (admin : Bool) (u d a : String) : Res Unit :=
  if strlen ADD_EXP_SQL + MAX_TIME_LEN + strlen u + strlen d + strlen a
      ≥ MAX_QUERY_LEN - 1 then
    .stop (.exit (-1)) [.out "Error: sorry, the length of your expense is too long\n"]
  else
    match env.sqlite3_exec (add_sql env.now u d a) with
    | some err => rejected (add_sql env.now u d a) err
    | none =>
      (audit_body env env.now admin u "add" (d ++ " " ++ a)).after
        [.sqlite3_exec (add_sql env.now u d a)]

/-- Closed form of `del_expense` once its two strings are read
(see `del_expense_user`, `del_expense_admin`). -/
def del_body (env : Env) (admin : Bool) (u id : String) : Res Unit :=
  if strlen DEL_EXP_SQL + strlen u + strlen id ≥ MAX_QUERY_LEN - 1 then
    .stop (.exit (-1)) [.out
      "Error: sorry, the length of your expense (username + description + amount) is too long\n"]
  else
    match env.sqlite3_exec (del_sql u id) with
    | some err => rejected (del_sql u id) err
    | none => (audit_body env env.now admin u "del" id).after [.sqlite3_exec (del_sql u id)]

/-- Closed form of `list_expenses` once the username is read
(see `list_expenses_user`, `list_expenses_admin`). -/
def list_body (env : Env) (u : String) : Res Unit :=
  if strlen LIST_EXP_SQL + strlen u ≥ MAX_QUERY_LEN - 1 then
    .stop (.exit (-1)) [.out "Error: sorry, the length of your username is too long\n"]
  else if env.sqlite3_prepare_v2 (list_sql u) then
    .ok () (.sqlite3_prepare_v2 (list_sql u) :: .out list_header ::
      (env.expense_rows (list_sql u)).map Event.row)
  else
    .stop (.exit (-1)) [.sqlite3_prepare_v2 (list_sql u), .sqlite3_close,
      .out "Error: unable to execute --list query\n"]

/-- The three pieces of text `help` prints. -/
def usage_events (prog : String) : List Event :=
  [.out (usage1 ++ "\n"), .out ("Usage: " ++ prog ++ " [--admin] <--command> [arguments]\n"),
    .out (usage2 ++ "\n")]

/-- The prompt and the read of `authenticate`. -/
def prompt_events : List Event := [.out "Enter the administrator password: ", .gets]

/-- Closed form of `open_db` (see `open_db_eq`). -/
def open_body (env : Env) (f : String) : Res Unit :=
  if env.access f = false then
    .stop (.exit (-1)) [.access f, .out "Error: cannot open the specified database file\n"]
  else if env.sqlite3_open f = false then
    .stop (.exit (-1)) [.access f, .sqlite3_open f,
      .out "Error: cannot open the specified database file\n"]
  else
    match env.sqlite3_exec TEST_EXP_SQL with
    | none => .ok () [.access f, .sqlite3_open f, .sqlite3_exec TEST_EXP_SQL]
    | some _ =>
      if env.fopen f = false then
        .stop (.exit (-1)) [.access f, .sqlite3_open f, .sqlite3_exec TEST_EXP_SQL,
          .sqlite3_close, .fopen f, .out "Error: cannot open the specified database file\n"]
      else
        .stop (.exit (-1)) [.access f, .sqlite3_open f, .sqlite3_exec TEST_EXP_SQL,
          .sqlite3_close, .fopen f,
          .out (f ++ " does not appear to be a valid sqlite3 database file.\n"),
          .out "To aid in debugging, here are the contents of the specified file:\n", .dump f]

/-- Closed form of the `--admin` step of `main` (see `main_admin_eq`). -/
def admin_body (env : Env) (argv : List String) : Res Session :=
  if arg argv 1 = "--admin" then
    match env.stdin with
    | none => .stop .undefined prompt_events
    | some line =>
      if strlen line + 1 ≤ PW_BUF_LEN then
        if line = ADMIN_PW then .ok ⟨true, 2, DB_FILENAME⟩ prompt_events
        else .stop (.exit (-1)) (prompt_events ++ [.out "Error: incorrect password\n"])
      else .stop .undefined prompt_events
  else .ok ⟨false, 1, DB_FILENAME⟩ []

/-- Closed form of the `--db` step of `main` (see `main_db_eq`). -/
def db_body (argv : List String) (s : Session) : Res Session :=
  if s.i < argv.length ∧ arg argv s.i = "--db" then
    if s.admin = false then
      .stop (.exit (-1)) [.out "Error: only administrators may use the --db command\n"]
    else if s.i + 1 = argv.length then
      .stop (.exit (-1)) [.out "Error: insufficient arguments supplied for --db command\n"]
    else .ok ⟨s.admin, s.i + 2, arg argv (s.i + 1)⟩ []
  else .ok s []

/-- The choice of the handler in `main` (lines 378 to 382). -/
def dispatch (env : Env) (argv : List String) (username : String) (s : Session) : Res Unit :=
  if arg argv s.i = "--add" then add_expense env (s.i + 1) argv username s.admin
  else if arg argv s.i = "--list" then list_expenses env (s.i + 1) argv username s.admin
  else if arg argv s.i = "--del" then del_expense env (s.i + 1) argv username s.admin
  else if arg argv s.i = "--listusers" then list_users env s.admin
  else .stop (.exit (-1)) [.out "Error: unknown command supplied\n"]

/-- The events of an `open_db` that succeeds. -/
def open_events (f : String) : List Event :=
  [.access f, .sqlite3_open f, .sqlite3_exec TEST_EXP_SQL]

/-- The username a handler acts on: for an admin the first argument after
the command, otherwise the account that runs the program. -/
def target (argv : List String) (username : String) (s : Session) : String :=
  if s.admin then arg argv (s.i + 1) else username

/-- The `k`-th argument a handler reads after the target username (for an
admin) or directly after the command (otherwise). -/
def operand (argv : List String) (s : Session) (k : Nat) : String :=
  if s.admin then arg argv (s.i + 2 + k) else arg argv (s.i + 1 + k)

/-- The events of an invocation of `--add` that returns 0, in session `s`
reached after the events `tr0`: open the database, INSERT the expense, INSERT
the audit entry, close. -/
def add_trace (env : Env) (argv : List String) (s : Session) (tr0 : List Event) : List Event :=
  .setuid :: tr0 ++ open_events s.db_filename ++
    [.sqlite3_exec (add_sql env.now (target argv env.pw_name s) (operand argv s 0)
        (operand argv s 1)),
      .sqlite3_exec (audit_sql env.now s.admin (target argv env.pw_name s) "add"
        (operand argv s 0 ++ " " ++ operand argv s 1)),
      .sqlite3_close]

/-- The events of an invocation of `--del` that returns 0: open the database,
DELETE the expense, INSERT the audit entry, close. -/
def del_trace (env : Env) (argv : List String) (s : Session) (tr0 : List Event) : List Event :=
  .setuid :: tr0 ++ open_events s.db_filename ++
    [.sqlite3_exec (del_sql (target argv env.pw_name s) (operand argv s 0)),
      .sqlite3_exec (audit_sql env.now s.admin (target argv env.pw_name s) "del"
        (operand argv s 0)),
      .sqlite3_close]

/-! ## Concrete environments -/

/-- The account `alice`, the right password on standard input, and a file
system and an engine that accept everything. -/
def env_ok : Env where
  pw_name := "alice"
  stdin := some ADMIN_PW
  now := 1700000000
  now_range := by decide
  access := fun _ => true
  sqlite3_open := fun _ => true
  sqlite3_exec := fun _ => none
  sqlite3_prepare_v2 := fun _ => true
  expense_rows := fun _ => []
  user_rows := []
  fopen := fun _ => true

/-- As `env_ok`, but the database file does not exist. -/
def env_nofile : Env := { env_ok with access := fun _ => false }

/-- As `env_ok`, but the line on standard input has 256 characters. -/
def env_longline : Env := { env_ok with stdin := some (String.mk (List.replicate 256 'A')) }

/-- A description of 1920 characters. -/
def long_desc : String := String.mk (List.replicate 1920 'a')


/-! ## Reasoning about runs -/


namespace Res

@[simp] theorem pure_def {α : Type} (a : α) : (pure a : Res α) = ok a [] := rfl

@[simp] theorem bind_def {α β : Type} (m : Res α) (f : α → Res β) : (m >>= f) = m.bind f := rfl

@[simp] theorem stop_bind {α β : Type} (o : Outcome) (tr : List Event) (f : α → Res β) :
    (stop o tr : Res α).bind f = stop o tr := rfl

@[simp] theorem ok_bind {α β : Type} (a : α) (tr : List Event) (f : α → Res β) :
    (ok a tr).bind f =
      match f a with
      | ok b t2 => ok b (tr ++ t2)
      | stop o t2 => stop o (tr ++ t2) := rfl

@[simp] theorem trace_ok {α : Type} (a : α) (tr : List Event) : (ok a tr).trace = tr := rfl

@[simp] theorem trace_stop {α : Type} (o : Outcome) (tr : List Event) :
    (stop o tr : Res α).trace = tr := rfl

/-- An event of a sequence comes from its first part or, when that returned,
from its second part. -/
theorem mem_trace_bind {α β : Type} {m : Res α} {f : α → Res β} {e : Event}
    (h : e ∈ (m.bind f).trace) :
    e ∈ m.trace ∨ ∃ a tr, m = ok a tr ∧ e ∈ (f a).trace := by
  cases m with
  | stop o tr => exact Or.inl h
  | ok a tr =>
    rw [ok_bind] at h
    cases hf : f a with
    | ok b t2 =>
      rw [hf] at h
      simp only [trace_ok, List.mem_append] at h
      rcases h with h | h
      · exact Or.inl h
      · exact Or.inr ⟨a, tr, rfl, by rw [hf]; exact h⟩
    | stop o t2 =>
      rw [hf] at h
      simp only [trace_stop, List.mem_append] at h
      rcases h with h | h
      · exact Or.inl h
      · exact Or.inr ⟨a, tr, rfl, by rw [hf]; exact h⟩

end Res

theorem error_eq {α : Type} (msg : String) :
    (error msg : Res α) = .stop (.exit (-1)) [.out ("Error: " ++ msg ++ "\n")] := rfl

theorem sql_error_eq {α : Type} (msg : String) :
    (sql_error msg : Res α) =
      .stop (.exit (-1)) [.sqlite3_close, .out ("Error from sqlite: " ++ msg ++ "\n")] := rfl

/-! ### The rendered statements -/

theorem format_add (t : Int) (u d a : String) :
    format ADD_EXP_SQL.data [.long t, .str u, .str d, .str a] =
      some (render ADD_EXP_SQL [.long t, .str u, .str d, .str a]).data := rfl

theorem format_audit (t v : Int) (u c a : String) :
    format AUDIT_LOG_SQL.data [.long t, .int v, .str u, .str c, .str a] =
      some (render AUDIT_LOG_SQL [.long t, .int v, .str u, .str c, .str a]).data := rfl

theorem format_del (u id : String) :
    format DEL_EXP_SQL.data [.str u, .str id] =
      some (render DEL_EXP_SQL [.str u, .str id]).data := rfl

theorem format_list (u : String) :
    format LIST_EXP_SQL.data [.str u] = some (render LIST_EXP_SQL [.str u]).data := rfl

theorem format_pair (d a : String) :
    format "%s %s".data [.str d, .str a] = some (d ++ " " ++ a).data := by
  simp [format, String.data_append]

theorem format_single (id : String) : format "%s".data [.str id] = some id.data := by
  simp [format]

theorem render_add (t : Int) (u d a : String) :
    render ADD_EXP_SQL [.long t, .str u, .str d, .str a] =
      "INSERT INTO expenses (time, username, description, amount) VALUES (" ++ Int.repr t ++
        ", \"" ++ u ++ "\", \"" ++ d ++ "\", " ++ a ++ ")" := by
  apply String.ext
  simp [render, format, ADD_EXP_SQL, String.data_append]

theorem render_audit (t v : Int) (u c a : String) :
    render AUDIT_LOG_SQL [.long t, .int v, .str u, .str c, .str a] =
      "INSERT INTO audit_log (time, admin, username, command, arguments) VALUES (" ++
        Int.repr t ++ ", " ++ Int.repr v ++ ", \"" ++ u ++ "\", \"" ++ c ++ "\", \"" ++ a ++
        "\")" := by
  apply String.ext
  simp [render, format, AUDIT_LOG_SQL, String.data_append]

theorem render_del (u id : String) :
    render DEL_EXP_SQL [.str u, .str id] =
      "DELETE FROM expenses WHERE username=\"" ++ u ++ "\" AND id=" ++ id := by
  apply String.ext
  simp [render, format, DEL_EXP_SQL, String.data_append]

theorem render_list (u : String) :
    render LIST_EXP_SQL [.str u] = "SELECT * FROM expenses WHERE username=\"" ++ u ++ "\"" := by
  apply String.ext
  simp [render, format, LIST_EXP_SQL, String.data_append]

theorem length_render_add (t : Int) (u d a : String) :
    (render ADD_EXP_SQL [.long t, .str u, .str d, .str a]).length =
      78 + (Int.repr t).length + u.length + d.length + a.length := by
  rw [render_add]
  simp only [String.length_append]
  have e1 : "INSERT INTO expenses (time, username, description, amount) VALUES (".length = 67 :=
    rfl
  have e2 : ", \"".length = 3 := rfl
  have e3 : "\", \"".length = 4 := rfl
  have e4 : "\", ".length = 3 := rfl
  have e5 : ")".length = 1 := rfl
  omega

theorem length_render_audit (t v : Int) (u c a : String) :
    (render AUDIT_LOG_SQL [.long t, .int v, .str u, .str c, .str a]).length =
      89 + (Int.repr t).length + (Int.repr v).length + u.length + c.length + a.length := by
  rw [render_audit]
  simp only [String.length_append]
  have e1 : ("INSERT INTO audit_log (time, admin, username, command, arguments) VALUES (").length
      = 74 := rfl
  have e2 : ", ".length = 2 := rfl
  have e3 : ", \"".length = 3 := rfl
  have e4 : "\", \"".length = 4 := rfl
  have e5 : "\")".length = 2 := rfl
  omega

theorem length_render_del (u id : String) :
    (render DEL_EXP_SQL [.str u, .str id]).length = 46 + u.length + id.length := by
  rw [render_del]
  simp only [String.length_append]
  have e1 : "DELETE FROM expenses WHERE username=\"".length = 37 := rfl
  have e2 : "\" AND id=".length = 9 := rfl
  omega

theorem length_render_list (u : String) :
    (render LIST_EXP_SQL [.str u]).length = 40 + u.length := by
  rw [render_list]
  simp only [String.length_append]
  have e1 : "SELECT * FROM expenses WHERE username=\"".length = 39 := rfl
  have e2 : "\"".length = 1 := rfl
  omega

theorem length_templates :
    strlen ADD_EXP_SQL = 87 ∧ strlen AUDIT_LOG_SQL = 100 ∧ strlen DEL_EXP_SQL = 50 ∧
      strlen LIST_EXP_SQL = 42 := ⟨rfl, rfl, rfl, rfl⟩

/-- A 64-bit signed value prints in at most `MAX_TIME_LEN` characters. -/
theorem length_repr_long (t : Int) (h : -2 ^ 63 ≤ t ∧ t < 2 ^ 63) :
    (Int.repr t).length ≤ 20 := by
  cases t with
  | ofNat m =>
    have hm : m < 10 ^ 19 := by
      have := h.2
      simp only [Int.ofNat_eq_coe] at this
      norm_num at this ⊢
      omega
    have := Nat.repr_length m 19 (by norm_num) hm
    show (Nat.repr m).length ≤ 20
    omega
  | negSucc m =>
    have hm : m + 1 < 10 ^ 19 := by
      have := h.1
      rw [Int.negSucc_eq] at this
      norm_num at this ⊢
      omega
    have := Nat.repr_length (m + 1) 19 (by norm_num) hm
    show ("-" ++ Nat.repr (m + 1)).length ≤ 20
    rw [String.length_append]
    have e : "-".length = 1 := rfl
    omega

/-- The admin flag prints as one character. -/
theorem length_repr_flag (admin : Bool) : (Int.repr (if admin then 1 else 0)).length = 1 := by
  cases admin <;> rfl

theorem sprintf_of_format {cap : Nat} {fmt : String} {args : List Arg} {r : String}
    (hf : format fmt.data args = some r.data) (hlen : r.length + 1 ≤ cap) :
    sprintf cap fmt args = .ok r [] := by
  unfold sprintf
  rw [hf]
  simp only [Res.pure_def]
  exact if_pos hlen

/-! ## What each function does -/

namespace Res

@[simp] theorem after_ok {α : Type} (tr t2 : List Event) (a : α) :
    (ok a t2).after tr = ok a (tr ++ t2) := rfl

@[simp] theorem after_stop {α : Type} (tr t2 : List Event) (o : Outcome) :
    (stop o t2 : Res α).after tr = stop o (tr ++ t2) := rfl

@[simp] theorem trace_after {α : Type} (tr : List Event) (r : Res α) :
    (r.after tr).trace = tr ++ r.trace := by
  cases r <;> rfl

@[simp] theorem ok_nil_bind {α β : Type} (a : α) (f : α → Res β) : (ok a []).bind f = f a := by
  rw [ok_bind]
  cases f a <;> rfl

@[simp] theorem after_nil {α : Type} (r : Res α) : r.after [] = r := by
  cases r <;> rfl

theorem ok_bind_after {α β : Type} (a : α) (tr : List Event) (f : α → Res β) :
    (ok a tr).bind f = (f a).after tr := by
  rw [ok_bind]
  cases f a <;> rfl

end Res

theorem audit_fits (t : Int) (ht : -2 ^ 63 ≤ t ∧ t < 2 ^ 63) (admin : Bool) (u c a : String)
    (hc : ¬ strlen AUDIT_LOG_SQL + MAX_TIME_LEN + 1 + strlen u + strlen c + strlen a
      ≥ MAX_QUERY_LEN - 1) :
    (audit_sql t admin u c a).length + 1 ≤ MAX_QUERY_LEN := by
  have h1 := length_repr_long t ht
  have h2 := length_repr_flag admin
  have h3 := length_templates.2.1
  unfold audit_sql
  rw [length_render_audit]
  simp only [strlen, MAX_TIME_LEN, MAX_QUERY_LEN] at *
  omega

theorem add_fits (t : Int) (ht : -2 ^ 63 ≤ t ∧ t < 2 ^ 63) (u d a : String)
    (hc : ¬ strlen ADD_EXP_SQL + MAX_TIME_LEN + strlen u + strlen d + strlen a
      ≥ MAX_QUERY_LEN - 1) :
    (add_sql t u d a).length + 1 ≤ MAX_QUERY_LEN := by
  have h1 := length_repr_long t ht
  have h3 := length_templates.1
  unfold add_sql
  rw [length_render_add]
  simp only [strlen, MAX_TIME_LEN, MAX_QUERY_LEN] at *
  omega

theorem pair_fits (u d a : String)
    (hc : ¬ strlen ADD_EXP_SQL + MAX_TIME_LEN + strlen u + strlen d + strlen a
      ≥ MAX_QUERY_LEN - 1) :
    (d ++ " " ++ a).length + 1 ≤ MAX_QUERY_LEN := by
  have h3 := length_templates.1
  have e : " ".length = 1 := rfl
  simp only [String.length_append]
  simp only [strlen, MAX_TIME_LEN, MAX_QUERY_LEN] at *
  omega

theorem del_fits (u id : String)
    (hc : ¬ strlen DEL_EXP_SQL + strlen u + strlen id ≥ MAX_QUERY_LEN - 1) :
    (del_sql u id).length + 1 ≤ MAX_QUERY_LEN := by
  have h3 := length_templates.2.2.1
  unfold del_sql
  rw [length_render_del]
  simp only [strlen, MAX_QUERY_LEN] at *
  omega

theorem id_fits (u id : String)
    (hc : ¬ strlen DEL_EXP_SQL + strlen u + strlen id ≥ MAX_QUERY_LEN - 1) :
    id.length + 1 ≤ MAX_QUERY_LEN := by
  have h3 := length_templates.2.2.1
  simp only [strlen, MAX_QUERY_LEN] at *
  omega

theorem list_fits (u : String)
    (hc : ¬ strlen LIST_EXP_SQL + strlen u ≥ MAX_QUERY_LEN - 1) :
    (list_sql u).length + 1 ≤ MAX_QUERY_LEN := by
  have h3 := length_templates.2.2.2
  unfold list_sql
  rw [length_render_list]
  simp only [strlen, MAX_QUERY_LEN] at *
  omega

theorem audit_log_eq (env : Env) (t : Int) (ht : -2 ^ 63 ≤ t ∧ t < 2 ^ 63) (admin : Bool)
    (u c a : String) :
    audit_log env t admin u c a = audit_body env t admin u c a := by
  unfold audit_log audit_body
  by_cases hc : strlen AUDIT_LOG_SQL + MAX_TIME_LEN + 1 + strlen u + strlen c + strlen a
      ≥ MAX_QUERY_LEN - 1
  · rw [if_pos hc, if_pos hc]
    rfl
  · rw [if_neg hc, if_neg hc]
    have hs := sprintf_of_format (format_audit t (if admin then 1 else 0) u c a)
      (audit_fits t ht admin u c a hc)
    simp only [Res.bind_def, Res.pure_def, Res.ok_bind, hs, emit, List.nil_append]
    unfold audit_sql
    cases env.sqlite3_exec (render AUDIT_LOG_SQL
      [.long t, .int (if admin then 1 else 0), .str u, .str c, .str a]) with
    | none => rfl
    | some err => rfl

/-- The part of `add_expense` after its three strings are read. -/
theorem add_rest_eq (env : Env) (admin : Bool) (u d a : String) :
    (do
      if strlen ADD_EXP_SQL + MAX_TIME_LEN + strlen u + strlen d + strlen a
          ≥ MAX_QUERY_LEN - 1 then
        error "sorry, the length of your expense is too long"
      let buf ← sprintf MAX_QUERY_LEN ADD_EXP_SQL [.long env.now, .str u, .str d, .str a]
      emit (.sqlite3_exec buf)
      match env.sqlite3_exec buf with
      | some err => sql_error err
      | none => pure ()
      let buf ← sprintf MAX_QUERY_LEN "%s %s" [.str d, .str a]
      audit_log env env.now admin u "add" buf : Res Unit) = add_body env admin u d a := by
  unfold add_body
  by_cases hc : strlen ADD_EXP_SQL + MAX_TIME_LEN + strlen u + strlen d + strlen a
      ≥ MAX_QUERY_LEN - 1
  · rw [if_pos hc, if_pos hc]
    rfl
  · rw [if_neg hc, if_neg hc]
    have hs := sprintf_of_format (format_add env.now u d a) (add_fits env.now env.now_range u d a hc)
    have hp := sprintf_of_format (format_pair d a) (pair_fits u d a hc)
    simp only [Res.bind_def, Res.pure_def, Res.ok_bind, hs, hp, emit, List.nil_append,
      audit_log_eq env env.now env.now_range]
    unfold add_sql
    cases env.sqlite3_exec (render ADD_EXP_SQL [.long env.now, .str u, .str d, .str a]) with
    | some err => rfl
    | none =>
      simp only [Res.ok_bind]
      cases audit_body env env.now admin u "add" (d ++ " " ++ a) <;> rfl

theorem add_expense_user (env : Env) (i : Nat) (argv : List String) (username : String) :
    add_expense env i argv username false =
      if i + 1 ≥ argv.length then
        .stop (.exit (-1)) [.out "Error: insufficient arguments for the --add command\n"]
      else add_body env false username (arg argv i) (arg argv (i + 1)) := by
  rw [← add_rest_eq]
  unfold add_expense
  by_cases hc : i + 1 ≥ argv.length
  · simp only [hc, if_true, Bool.not_false, Res.bind_def, error_eq, Res.stop_bind]
    rfl
  · simp only [hc, if_false, if_true, Bool.not_false, Res.bind_def, Res.pure_def,
      Res.ok_nil_bind]

theorem add_expense_admin (env : Env) (i : Nat) (argv : List String) (username : String) :
    add_expense env i argv username true =
      if i + 2 ≥ argv.length then
        .stop (.exit (-1)) [.out "Error: insufficient arguments for the --add command\n"]
      else add_body env true (arg argv i) (arg argv (i + 1)) (arg argv (i + 2)) := by
  rw [← add_rest_eq]
  unfold add_expense
  by_cases hc : i + 2 ≥ argv.length
  · simp only [hc, if_true, if_false, Bool.not_true, Bool.false_eq_true, Res.bind_def, error_eq,
      Res.stop_bind]
    rfl
  · simp only [hc, if_false, Bool.not_true, Bool.false_eq_true, Res.bind_def, Res.pure_def,
      Res.ok_nil_bind]

/-- The part of `del_expense` after its two strings are read. -/
theorem del_rest_eq (env : Env) (admin : Bool) (u id : String) :
    (do
      if strlen DEL_EXP_SQL + strlen u + strlen id ≥ MAX_QUERY_LEN - 1 then
        error "sorry, the length of your expense (username + description + amount) is too long"
      let buf ← sprintf MAX_QUERY_LEN DEL_EXP_SQL [.str u, .str id]
      emit (.sqlite3_exec buf)
      match env.sqlite3_exec buf with
      | some err => sql_error err
      | none => pure ()
      let buf ← sprintf MAX_QUERY_LEN "%s" [.str id]
      audit_log env env.now admin u "del" buf : Res Unit) = del_body env admin u id := by
  unfold del_body
  by_cases hc : strlen DEL_EXP_SQL + strlen u + strlen id ≥ MAX_QUERY_LEN - 1
  · rw [if_pos hc, if_pos hc]
    rfl
  · rw [if_neg hc, if_neg hc]
    have hs := sprintf_of_format (format_del u id) (del_fits u id hc)
    have hp := sprintf_of_format (format_single id) (id_fits u id hc)
    simp only [Res.bind_def, Res.pure_def, Res.ok_bind, hs, hp, emit, List.nil_append,
      audit_log_eq env env.now env.now_range]
    unfold del_sql
    cases env.sqlite3_exec (render DEL_EXP_SQL [.str u, .str id]) with
    | some err => rfl
    | none =>
      simp only [Res.ok_bind]
      cases audit_body env env.now admin u "del" id <;> rfl

theorem del_expense_user (env : Env) (i : Nat) (argv : List String) (username : String) :
    del_expense env i argv username false =
      if i ≥ argv.length then
        .stop (.exit (-1)) [.out "Error: insufficient arguments for the --del command\n"]
      else del_body env false username (arg argv i) := by
  rw [← del_rest_eq]
  unfold del_expense
  by_cases hc : i ≥ argv.length
  · simp only [hc, if_true, Bool.not_false, Res.bind_def, error_eq, Res.stop_bind]
    rfl
  · simp only [hc, if_false, if_true, Bool.not_false, Res.bind_def, Res.pure_def,
      Res.ok_nil_bind]

theorem del_expense_admin (env : Env) (i : Nat) (argv : List String) (username : String) :
    del_expense env i argv username true =
      if i + 1 ≥ argv.length then
        .stop (.exit (-1)) [.out "Error: insufficient arguments for the --del command\n"]
      else del_body env true (arg argv i) (arg argv (i + 1)) := by
  rw [← del_rest_eq]
  unfold del_expense
  by_cases hc : i + 1 ≥ argv.length
  · simp only [hc, if_true, if_false, Bool.not_true, Bool.false_eq_true, Res.bind_def, error_eq,
      Res.stop_bind]
    rfl
  · simp only [hc, if_false, Bool.not_true, Bool.false_eq_true, Res.bind_def, Res.pure_def,
      Res.ok_nil_bind]

/-- The part of `list_expenses` after the username is read. -/
theorem list_rest_eq (env : Env) (u : String) :
    (do
      if strlen LIST_EXP_SQL + strlen u ≥ MAX_QUERY_LEN - 1 then
        error "sorry, the length of your username is too long"
      let buf ← sprintf MAX_QUERY_LEN LIST_EXP_SQL [.str u]
      emit (.sqlite3_prepare_v2 buf)
      if !env.sqlite3_prepare_v2 buf then
        emit .sqlite3_close
        error "unable to execute --list query"
      emit (.out list_header)
      Res.ok () ((env.expense_rows buf).map Event.row) : Res Unit) = list_body env u := by
  unfold list_body
  by_cases hc : strlen LIST_EXP_SQL + strlen u ≥ MAX_QUERY_LEN - 1
  · rw [if_pos hc, if_pos hc]
    rfl
  · rw [if_neg hc, if_neg hc]
    have hs := sprintf_of_format (format_list u) (list_fits u hc)
    simp only [Res.bind_def, Res.pure_def, Res.ok_bind, hs, emit, List.nil_append]
    unfold list_sql
    cases env.sqlite3_prepare_v2 (render LIST_EXP_SQL [.str u]) with
    | false => rfl
    | true => rfl

theorem list_expenses_user (env : Env) (i : Nat) (argv : List String) (username : String) :
    list_expenses env i argv username false = list_body env username := by
  rw [← list_rest_eq]
  unfold list_expenses
  simp only [Bool.false_eq_true, if_false, Res.bind_def, Res.pure_def, Res.ok_nil_bind]

theorem list_expenses_admin (env : Env) (i : Nat) (argv : List String) (username : String) :
    list_expenses env i argv username true =
      if i ≥ argv.length then
        .stop (.exit (-1)) [.out "Error: insufficient arguments for the --list command\n"]
      else list_body env (arg argv i) := by
  rw [← list_rest_eq]
  unfold list_expenses
  by_cases hc : i ≥ argv.length
  · simp only [hc, if_true, Res.bind_def, error_eq, Res.stop_bind]
    rfl
  · simp only [hc, if_false, if_true, Res.bind_def, Res.pure_def, Res.ok_nil_bind]

theorem list_users_user (env : Env) :
    list_users env false =
      .stop (.exit (-1))
        [.out "Error: you must have administrator access to run this command\n"] := rfl

theorem list_users_admin (env : Env) :
    list_users env true =
      if env.sqlite3_prepare_v2 LIST_USER_SQL then
        .ok () (.sqlite3_prepare_v2 LIST_USER_SQL ::
          env.user_rows.map fun name => Event.out (name ++ "\n"))
      else
        .stop (.exit (-1)) [.sqlite3_prepare_v2 LIST_USER_SQL, .sqlite3_close,
          .out "Error: unable to execute --listusers query\n"] := by
  unfold list_users
  cases h : env.sqlite3_prepare_v2 LIST_USER_SQL with
  | false =>
    simp only [Bool.not_true, Bool.false_eq_true, if_false, Res.bind_def, Res.pure_def,
      Res.ok_nil_bind, emit, Res.ok_bind, Bool.not_false, if_true, error_eq, Res.stop_bind]
    rfl
  | true =>
    simp only [Bool.not_true, Bool.false_eq_true, if_false, Res.bind_def, Res.pure_def,
      Res.ok_nil_bind, emit, Res.ok_bind, if_true]
    rfl

theorem help_eq (argv : List String) :
    help argv =
      if help_found argv then .stop (.exit 0) (usage_events (arg argv 0)) else .ok () [] := by
  unfold help
  cases h : help_found argv with
  | false => rfl
  | true =>
    simp only [if_true, Res.bind_def, puts, emit, Res.ok_bind, printf, exit]
    have hf : format "Usage: %s [--admin] <--command> [arguments]\n".data [.str (arg argv 0)] =
        some ("Usage: " ++ arg argv 0 ++ " [--admin] <--command> [arguments]\n").data := by
      simp [format, String.data_append]
    rw [hf]
    rfl

theorem authenticate_eq (env : Env) :
    authenticate env =
      match env.stdin with
      | none => .stop .undefined prompt_events
      | some line =>
        if strlen line + 1 ≤ PW_BUF_LEN then .ok (decide (line = ADMIN_PW)) prompt_events
        else .stop .undefined prompt_events := by
  unfold authenticate
  cases env.stdin with
  | none => rfl
  | some line =>
    by_cases h : strlen line + 1 ≤ PW_BUF_LEN
    · by_cases hp : line = ADMIN_PW
      · simp only [h, hp, if_true, Res.bind_def, emit, Res.ok_bind, Res.pure_def, decide_True]
        rfl
      · simp only [h, hp, if_true, if_false, Res.bind_def, emit, Res.ok_bind, Res.pure_def,
          decide_False]
        rfl
    · simp only [h, if_false, Res.bind_def, emit, Res.ok_bind, undefined]
      rfl

theorem main_admin_eq (env : Env) (argv : List String) :
    main_admin env argv = admin_body env argv := by
  unfold main_admin admin_body
  by_cases ha : arg argv 1 = "--admin"
  · rw [if_pos ha, if_pos ha]
    simp only [Res.bind_def, authenticate_eq]
    cases env.stdin with
    | none => rfl
    | some line =>
      by_cases h : strlen line + 1 ≤ PW_BUF_LEN
      · by_cases hp : line = ADMIN_PW
        · subst hp
          simp only [h, if_true, Res.ok_bind, decide_True, Bool.not_true, Bool.false_eq_true,
            if_false, Res.pure_def, List.append_nil]
        · simp only [h, hp, if_true, if_false, Res.ok_bind, decide_False, Bool.not_false,
            error_eq, Res.stop_bind]
          rfl
      · simp only [h, if_false, Res.stop_bind]
  · rw [if_neg ha, if_neg ha]
    rfl

theorem main_db_eq (argv : List String) (s : Session) : main_db argv s = db_body argv s := by
  unfold main_db db_body
  by_cases hc : s.i < argv.length ∧ arg argv s.i = "--db"
  · rw [if_pos hc, if_pos hc]
    cases hs : s.admin with
    | false =>
      simp only [Bool.not_false, if_true, Res.bind_def, error_eq, Res.stop_bind]
      rfl
    | true =>
      by_cases hn : s.i + 1 = argv.length
      · simp only [hn, Bool.not_true, Bool.false_eq_true, if_false, if_true, Res.bind_def,
          Res.pure_def, Res.ok_nil_bind, error_eq, Res.stop_bind]
        rfl
      · simp only [hn, Bool.not_true, Bool.false_eq_true, if_false, Res.bind_def,
          Res.pure_def, Res.ok_nil_bind]
        rfl
  · rw [if_neg hc, if_neg hc]
    rfl

theorem open_db_eq (env : Env) (f : String) : open_db env f = open_body env f := by
  unfold open_db open_body
  have hf : format "%s does not appear to be a valid sqlite3 database file.\n".data [.str f] =
      some (f ++ " does not appear to be a valid sqlite3 database file.\n").data := by
    simp [format, String.data_append]
  cases ha : env.access f with
  | false =>
    simp only [Bool.not_false, if_true, Res.bind_def, emit, Res.ok_bind, error_eq, Res.stop_bind]
    rfl
  | true =>
    cases ho : env.sqlite3_open f with
    | false =>
      simp only [Bool.not_false, Bool.not_true, Bool.false_eq_true, if_true, if_false,
        Res.bind_def, emit, Res.ok_bind, error_eq, Res.stop_bind, Res.pure_def]
      rfl
    | true =>
      cases ht : env.sqlite3_exec TEST_EXP_SQL with
      | none =>
        simp only [Bool.not_true, Bool.false_eq_true, if_false, Res.bind_def, emit, Res.ok_bind,
          Res.pure_def, Option.isSome_none]
        rfl
      | some err =>
        cases hp : env.fopen f with
        | false =>
          simp only [Bool.not_true, Bool.not_false, Bool.false_eq_true, if_false, if_true,
            Res.bind_def, emit, Res.ok_bind, Res.pure_def, Option.isSome_some, error_eq,
            Res.stop_bind]
          rfl
        | true =>
          simp only [Bool.not_true, Bool.false_eq_true, if_false, if_true,
            Res.bind_def, emit, Res.ok_bind, Res.pure_def, Option.isSome_some, printf, hf, puts,
            exit]
          rfl

theorem main_command_eq (env : Env) (argv : List String) (username : String) (s : Session) :
    main_command env argv username s =
      if s.i < argv.length then
        (open_body env s.db_filename).bind fun _ =>
          (dispatch env argv username s).bind fun _ => .ok 0 [.sqlite3_close]
      else .stop (.exit (-1)) [.out "Error: no command supplied\n"] := by
  unfold main_command dispatch
  by_cases hc : s.i < argv.length
  · rw [if_pos hc, if_pos hc]
    simp only [Res.bind_def, open_db_eq, emit, Res.pure_def]
    congr 1
    funext _
    split_ifs
    all_goals rfl
  · rw [if_neg hc, if_neg hc]
    rfl

theorem main_eq (env : Env) (prog : String) (args : List String) :
    main env prog args =
      if help_found (prog :: args) then .stop (.exit 0) (usage_events prog)
      else
        (((admin_body env (prog :: args)).bind (db_body (prog :: args))).bind
          (main_command env (prog :: args) env.pw_name)).after [.setuid] := by
  unfold main main_session
  simp only [Res.bind_def, help_eq, main_admin_eq, emit]
  cases help_found (prog :: args) with
  | true => rfl
  | false =>
    simp only [Bool.false_eq_true, if_false, Res.ok_nil_bind, Res.ok_bind_after, main_db_eq,
      Res.after_nil]

/-- The run of `main` when help does not fire, the options are accepted, a
token follows them and the database opens. -/
theorem main_run (env : Env) (prog : String) (args : List String) (s : Session)
    (tr0 : List Event) (hh : help_found (prog :: args) = false)
    (hs : (admin_body env (prog :: args)).bind (db_body (prog :: args)) = .ok s tr0)
    (hi : s.i < (prog :: args).length)
    (ho : open_body env s.db_filename = .ok () (open_events s.db_filename)) :
    main env prog args =
      ((dispatch env (prog :: args) env.pw_name s).bind fun _ => .ok 0 [.sqlite3_close]).after
        (.setuid :: tr0 ++ open_events s.db_filename) := by
  rw [main_eq, hh, if_neg (by decide), hs, Res.ok_bind_after, main_command_eq, if_pos hi, ho,
    Res.ok_bind_after]
  cases (dispatch env (prog :: args) env.pw_name s).bind fun _ => Res.ok (0 : Int)
    [Event.sqlite3_close] with
  | ok a t => simp
  | stop o t => simp

theorem add_body_unlogged (env : Env) (admin : Bool) (u d a : String)
    (h1 : ¬ add_too_long u d a) (h2 : env.sqlite3_exec (add_sql env.now u d a) = none)
    (h3 : audit_too_long u "add" (d ++ " " ++ a)) :
    add_body env admin u d a =
      .stop (.exit (-1)) [.sqlite3_exec (add_sql env.now u d a),
        .out "Error: sorry, the audit log entry is too long\n"] := by
  rw [add_body, if_neg h1, h2]
  simp only [audit_body, if_pos h3]
  rfl

theorem add_body_logged (env : Env) (admin : Bool) (u d a : String)
    (h1 : ¬ add_too_long u d a) (h2 : env.sqlite3_exec (add_sql env.now u d a) = none)
    (h3 : ¬ audit_too_long u "add" (d ++ " " ++ a))
    (h4 : env.sqlite3_exec (audit_sql env.now admin u "add" (d ++ " " ++ a)) = none) :
    add_body env admin u d a =
      .ok () [.sqlite3_exec (add_sql env.now u d a),
        .sqlite3_exec (audit_sql env.now admin u "add" (d ++ " " ++ a))] := by
  rw [add_body, if_neg h1, h2]
  simp only [audit_body, if_neg h3, h4]
  rfl

theorem del_body_unlogged (env : Env) (admin : Bool) (u id : String)
    (h1 : ¬ del_too_long u id) (h2 : env.sqlite3_exec (del_sql u id) = none)
    (h3 : audit_too_long u "del" id) :
    del_body env admin u id =
      .stop (.exit (-1)) [.sqlite3_exec (del_sql u id),
        .out "Error: sorry, the audit log entry is too long\n"] := by
  rw [del_body, if_neg h1, h2]
  simp only [audit_body, if_pos h3]
  rfl

theorem del_body_logged (env : Env) (admin : Bool) (u id : String)
    (h1 : ¬ del_too_long u id) (h2 : env.sqlite3_exec (del_sql u id) = none)
    (h3 : ¬ audit_too_long u "del" id)
    (h4 : env.sqlite3_exec (audit_sql env.now admin u "del" id) = none) :
    del_body env admin u id =
      .ok () [.sqlite3_exec (del_sql u id),
        .sqlite3_exec (audit_sql env.now admin u "del" id)] := by
  rw [del_body, if_neg h1, h2]
  simp only [audit_body, if_neg h3, h4]
  rfl

theorem add_body_starts_with_insert (env : Env) (admin : Bool) (u d a : String)
    (h : ¬ add_too_long u d a) :
    ∃ tl, (add_body env admin u d a).trace = .sqlite3_exec (add_sql env.now u d a) :: tl := by
  rw [add_body, if_neg h]
  cases env.sqlite3_exec (add_sql env.now u d a) with
  | some err => exact ⟨_, rfl⟩
  | none => exact ⟨(audit_body env env.now admin u "add" (d ++ " " ++ a)).trace, by simp⟩

theorem main_session_eq (env : Env) (argv : List String) :
    main_session env argv = (admin_body env argv).bind (db_body argv) := by
  unfold main_session
  simp only [Res.bind_def, main_admin_eq]
  congr 1
  funext s
  exact main_db_eq argv s

/-- A token that is read and is not empty lies inside `argv`. -/
theorem lt_length_of_arg_ne {argv : List String} {i : Nat} (h : arg argv i ≠ "") :
    i < argv.length := by
  by_contra hlt
  apply h
  unfold arg
  rw [List.getD_eq_default _ _ (by omega)]

/-- The sessions `main` can reach: a non-admin one at index 1, or an admin
one after the right password, with or without `--db PATH`. -/
theorem session_cases {env : Env} {argv : List String} {s : Session} {tr : List Event}
    (h : (admin_body env argv).bind (db_body argv) = .ok s tr) :
    (arg argv 1 ≠ "--admin" ∧ arg argv 1 ≠ "--db" ∧ s = ⟨false, 1, DB_FILENAME⟩ ∧ tr = []) ∨
    (arg argv 1 = "--admin" ∧ env.stdin = some ADMIN_PW ∧ tr = prompt_events ∧
      ((¬ (2 < argv.length ∧ arg argv 2 = "--db") ∧ s = ⟨true, 2, DB_FILENAME⟩) ∨
        (arg argv 2 = "--db" ∧ 3 < argv.length ∧ s = ⟨true, 4, arg argv 3⟩))) := by
  unfold admin_body at h
  by_cases ha : arg argv 1 = "--admin"
  · right
    rw [if_pos ha] at h
    cases hin : env.stdin with
    | none =>
      rw [hin] at h
      simp at h
    | some line =>
      rw [hin] at h
      by_cases hl : strlen line + 1 ≤ PW_BUF_LEN
      · by_cases hp : line = ADMIN_PW
        · subst hp
          simp only [hl, if_true, Res.ok_bind_after] at h
          unfold db_body at h
          by_cases hd : 2 < argv.length ∧ arg argv 2 = "--db"
          · simp only [hd, and_self, if_true, Bool.true_eq_false, if_false] at h
            by_cases h3 : 2 + 1 = argv.length
            · simp [h3] at h
            · simp only [h3, if_false, Res.after_ok, List.append_nil, Res.ok.injEq] at h
              refine ⟨ha, rfl, h.2.symm, Or.inr ⟨hd.2, by omega, h.1.symm⟩⟩
          · simp only [hd, if_false, Res.after_ok, List.append_nil, Res.ok.injEq] at h
            exact ⟨ha, rfl, h.2.symm, Or.inl ⟨hd, h.1.symm⟩⟩
        · simp [hl, hp] at h
      · simp [hl] at h
  · left
    rw [if_neg ha] at h
    simp only [Res.ok_nil_bind] at h
    unfold db_body at h
    by_cases hd : 1 < argv.length ∧ arg argv 1 = "--db"
    · simp [hd] at h
    · simp only [hd, if_false, Res.ok.injEq] at h
      refine ⟨ha, ?_, h.1.symm, h.2.symm⟩
      intro hdb
      exact hd ⟨lt_length_of_arg_ne (by rw [hdb]; decide), hdb⟩

theorem dispatch_add (env : Env) (argv : List String) (u : String) (s : Session)
    (h : arg argv s.i = "--add") :
    dispatch env argv u s =
      if s.i + 2 + (if s.admin then 1 else 0) ≥ argv.length then
        .stop (.exit (-1)) [.out "Error: insufficient arguments for the --add command\n"]
      else add_body env s.admin (target argv u s) (operand argv s 0) (operand argv s 1) := by
  unfold dispatch target operand
  rw [if_pos h]
  cases s.admin with
  | false => rw [add_expense_user]; rfl
  | true => rw [add_expense_admin]; rfl

theorem dispatch_del (env : Env) (argv : List String) (u : String) (s : Session)
    (h : arg argv s.i = "--del") :
    dispatch env argv u s =
      if s.i + 1 + (if s.admin then 1 else 0) ≥ argv.length then
        .stop (.exit (-1)) [.out "Error: insufficient arguments for the --del command\n"]
      else del_body env s.admin (target argv u s) (operand argv s 0) := by
  unfold dispatch target operand
  rw [if_neg (by rw [h]; decide), if_neg (by rw [h]; decide), if_pos h]
  cases s.admin with
  | false => rw [del_expense_user]; rfl
  | true => rw [del_expense_admin]; rfl

theorem dispatch_list (env : Env) (argv : List String) (u : String) (s : Session)
    (h : arg argv s.i = "--list") :
    dispatch env argv u s =
      if s.admin = true ∧ s.i + 1 ≥ argv.length then
        .stop (.exit (-1)) [.out "Error: insufficient arguments for the --list command\n"]
      else list_body env (target argv u s) := by
  unfold dispatch target
  rw [if_neg (by rw [h]; decide), if_pos h]
  cases s.admin with
  | false => rw [list_expenses_user]; simp
  | true => rw [list_expenses_admin]; simp

theorem dispatch_listusers (env : Env) (argv : List String) (u : String) (s : Session)
    (h : arg argv s.i = "--listusers") :
    dispatch env argv u s = list_users env s.admin := by
  unfold dispatch
  rw [if_neg (by rw [h]; decide), if_neg (by rw [h]; decide), if_neg (by rw [h]; decide),
    if_pos h]

theorem dispatch_unknown (env : Env) (argv : List String) (u : String) (s : Session)
    (h1 : arg argv s.i ≠ "--add") (h2 : arg argv s.i ≠ "--list") (h3 : arg argv s.i ≠ "--del")
    (h4 : arg argv s.i ≠ "--listusers") :
    dispatch env argv u s =
      .stop (.exit (-1)) [.out "Error: unknown command supplied\n"] := by
  unfold dispatch
  rw [if_neg h1, if_neg h2, if_neg h3, if_neg h4]

theorem open_body_ok {env : Env} {f : String} {tr : List Event}
    (h : open_body env f = .ok () tr) : tr = open_events f := by
  unfold open_body at h
  cases ha : env.access f <;> cases ho : env.sqlite3_open f <;>
    cases ht : env.sqlite3_exec TEST_EXP_SQL <;> cases hp : env.fopen f <;>
    simp [ha, ho, ht, hp] at h <;> exact h.symm

theorem audit_body_ok {env : Env} {t : Int} {admin : Bool} {u c a : String} {tr : List Event}
    (h : audit_body env t admin u c a = .ok () tr) :
    tr = [.sqlite3_exec (audit_sql t admin u c a)] := by
  unfold audit_body at h
  split_ifs at h
  split at h
  · simp [rejected] at h
  · simp only [Res.ok.injEq, true_and] at h
    exact h.symm

theorem add_body_ok {env : Env} {admin : Bool} {u d a : String} {tr : List Event}
    (h : add_body env admin u d a = .ok () tr) :
    tr = [.sqlite3_exec (add_sql env.now u d a),
      .sqlite3_exec (audit_sql env.now admin u "add" (d ++ " " ++ a))] := by
  unfold add_body at h
  split_ifs at h
  split at h
  · simp [rejected] at h
  · cases hb : audit_body env env.now admin u "add" (d ++ " " ++ a) with
    | stop o t => rw [hb] at h; simp at h
    | ok x t =>
      rw [hb] at h
      simp only [Res.after_ok, Res.ok.injEq, true_and] at h
      rw [← h, audit_body_ok hb]
      rfl

theorem del_body_ok {env : Env} {admin : Bool} {u id : String} {tr : List Event}
    (h : del_body env admin u id = .ok () tr) :
    tr = [.sqlite3_exec (del_sql u id),
      .sqlite3_exec (audit_sql env.now admin u "del" id)] := by
  unfold del_body at h
  split_ifs at h
  split at h
  · simp [rejected] at h
  · cases hb : audit_body env env.now admin u "del" id with
    | stop o t => rw [hb] at h; simp at h
    | ok x t =>
      rw [hb] at h
      simp only [Res.after_ok, Res.ok.injEq, true_and] at h
      rw [← h, audit_body_ok hb]
      rfl

/-- What a returning `main` is made of. -/
theorem main_ok_parts {env : Env} {prog : String} {args : List String} {v : Int}
    {tr : List Event} (h : main env prog args = .ok v tr) :
    help_found (prog :: args) = false ∧
    ∃ s tr0 t1, (admin_body env (prog :: args)).bind (db_body (prog :: args)) = .ok s tr0 ∧
      s.i < (prog :: args).length ∧
      open_body env s.db_filename = .ok () (open_events s.db_filename) ∧
      dispatch env (prog :: args) env.pw_name s = .ok () t1 ∧
      v = 0 ∧ tr = .setuid :: tr0 ++ open_events s.db_filename ++ t1 ++ [.sqlite3_close] := by
  rw [main_eq] at h
  cases hh : help_found (prog :: args) with
  | true => rw [hh] at h; simp at h
  | false =>
    refine ⟨rfl, ?_⟩
    rw [hh, if_neg (by decide)] at h
    cases hs : (admin_body env (prog :: args)).bind (db_body (prog :: args)) with
    | stop o t => rw [hs] at h; simp at h
    | ok s tr0 =>
      rw [hs, Res.ok_bind_after, main_command_eq] at h
      by_cases hi : s.i < (prog :: args).length
      · rw [if_pos hi] at h
        cases ho : open_body env s.db_filename with
        | stop o t => rw [ho] at h; simp at h
        | ok x t =>
          have ht := open_body_ok ho
          subst ht
          rw [ho, Res.ok_bind_after] at h
          cases hd : dispatch env (prog :: args) env.pw_name s with
          | stop o t => rw [hd] at h; simp at h
          | ok y t1 =>
            rw [hd] at h
            simp only [Res.ok_bind_after, Res.after_ok, Res.ok.injEq] at h
            refine ⟨s, tr0, t1, rfl, hi, ho, hd, h.1.symm, ?_⟩
            rw [← h.2]
            simp
      · rw [if_neg hi] at h
        simp at h

/-- The run of a `--add` whose two statements are accepted. -/
theorem main_add_logged (env : Env) (prog : String) (args : List String) (s : Session)
    (tr0 : List Event) (hh : help_found (prog :: args) = false)
    (hs : (admin_body env (prog :: args)).bind (db_body (prog :: args)) = .ok s tr0)
    (ho : open_body env s.db_filename = .ok () (open_events s.db_filename))
    (hc : arg (prog :: args) s.i = "--add")
    (hn : ¬ s.i + 2 + (if s.admin then 1 else 0) ≥ (prog :: args).length)
    (h1 : ¬ add_too_long (target (prog :: args) env.pw_name s) (operand (prog :: args) s 0)
      (operand (prog :: args) s 1))
    (h2 : env.sqlite3_exec (add_sql env.now (target (prog :: args) env.pw_name s)
      (operand (prog :: args) s 0) (operand (prog :: args) s 1)) = none)
    (h3 : ¬ audit_too_long (target (prog :: args) env.pw_name s) "add"
      (operand (prog :: args) s 0 ++ " " ++ operand (prog :: args) s 1))
    (h4 : env.sqlite3_exec (audit_sql env.now s.admin (target (prog :: args) env.pw_name s) "add"
      (operand (prog :: args) s 0 ++ " " ++ operand (prog :: args) s 1)) = none) :
    main env prog args = .ok 0 (add_trace env (prog :: args) s tr0) := by
  have hi : s.i < (prog :: args).length := lt_length_of_arg_ne (by rw [hc]; decide)
  rw [main_run env prog args s tr0 hh hs hi ho, dispatch_add env _ _ s hc, if_neg hn,
    add_body_logged env s.admin _ _ _ h1 h2 h3 h4]
  simp [add_trace]

/-- The run of a `--del` whose two statements are accepted. -/
theorem main_del_logged (env : Env) (prog : String) (args : List String) (s : Session)
    (tr0 : List Event) (hh : help_found (prog :: args) = false)
    (hs : (admin_body env (prog :: args)).bind (db_body (prog :: args)) = .ok s tr0)
    (ho : open_body env s.db_filename = .ok () (open_events s.db_filename))
    (hc : arg (prog :: args) s.i = "--del")
    (hn : ¬ s.i + 1 + (if s.admin then 1 else 0) ≥ (prog :: args).length)
    (h1 : ¬ del_too_long (target (prog :: args) env.pw_name s) (operand (prog :: args) s 0))
    (h2 : env.sqlite3_exec (del_sql (target (prog :: args) env.pw_name s)
      (operand (prog :: args) s 0)) = none)
    (h3 : ¬ audit_too_long (target (prog :: args) env.pw_name s) "del"
      (operand (prog :: args) s 0))
    (h4 : env.sqlite3_exec (audit_sql env.now s.admin (target (prog :: args) env.pw_name s) "del"
      (operand (prog :: args) s 0)) = none) :
    main env prog args = .ok 0 (del_trace env (prog :: args) s tr0) := by
  have hi : s.i < (prog :: args).length := lt_length_of_arg_ne (by rw [hc]; decide)
  rw [main_run env prog args s tr0 hh hs hi ho, dispatch_del env _ _ s hc, if_neg hn,
    del_body_logged env s.admin _ _ h1 h2 h3 h4]
  simp [del_trace]

theorem audit_sql_examples :
    audit_sql 1700000000 false "alice" "add" "coffee 3.50" =
      "INSERT INTO audit_log (time, admin, username, command, arguments) VALUES (1700000000, 0, \"alice\", \"add\", \"coffee 3.50\")" ∧
    audit_sql 1700000000 true "bob" "del" "4" =
      "INSERT INTO audit_log (time, admin, username, command, arguments) VALUES (1700000000, 1, \"bob\", \"del\", \"4\")" := by
  constructor
  · rw [audit_sql, render_audit]; rfl
  · rw [audit_sql, render_audit]; rfl

/-! ### The events a run can contain -/

theorem mem_open_body_trace {env : Env} {f : String} {e : Event}
    (h : e ∈ (open_body env f).trace) :
    e = .access f ∨ e = .sqlite3_open f ∨ e = .sqlite3_exec TEST_EXP_SQL ∨ e = .sqlite3_close ∨
      e = .fopen f ∨ e = .dump f ∨ ∃ t, e = .out t := by
  unfold open_body at h
  cases ha : env.access f <;> cases ho : env.sqlite3_open f <;>
    cases ht : env.sqlite3_exec TEST_EXP_SQL <;> cases hp : env.fopen f <;>
    simp [ha, ho, ht, hp] at h <;> aesop

theorem mem_session_trace {env : Env} {argv : List String} {e : Event}
    (h : e ∈ ((admin_body env argv).bind (db_body argv)).trace) :
    e = .gets ∨ ∃ t, e = .out t := by
  have hp : ∀ e ∈ prompt_events, e = Event.gets ∨ ∃ t, e = Event.out t := by
    intro e he
    simp [prompt_events] at he
    aesop
  have hd : ∀ s, ∀ e ∈ (db_body argv s).trace, e = Event.gets ∨ ∃ t, e = Event.out t := by
    intro s e he
    unfold db_body at he
    split_ifs at he <;> simp at he <;> aesop
  rcases Res.mem_trace_bind h with h1 | ⟨s, tr, _, h2⟩
  · unfold admin_body at h1
    split_ifs at h1
    · split at h1
      · exact hp e h1
      · split_ifs at h1
        · exact hp e h1
        · simp only [Res.trace_stop, List.mem_append] at h1
          rcases h1 with h1 | h1
          · exact hp e h1
          · simp at h1; aesop
        · exact hp e h1
    · simp at h1
  · exact hd s e h2

theorem mem_audit_body_trace {env : Env} {t : Int} {admin : Bool} {u c a : String} {e : Event}
    (h : e ∈ (audit_body env t admin u c a).trace) :
    e = .sqlite3_exec (audit_sql t admin u c a) ∨ e = .sqlite3_close ∨ ∃ x, e = .out x := by
  unfold audit_body at h
  split_ifs at h
  · simp at h; aesop
  · split at h <;> simp [rejected] at h <;> aesop

theorem mem_add_body_trace {env : Env} {admin : Bool} {u d a : String} {e : Event}
    (h : e ∈ (add_body env admin u d a).trace) :
    e = .sqlite3_exec (add_sql env.now u d a) ∨
      e = .sqlite3_exec (audit_sql env.now admin u "add" (d ++ " " ++ a)) ∨
      e = .sqlite3_close ∨ ∃ x, e = .out x := by
  unfold add_body at h
  split_ifs at h
  · simp at h; aesop
  · split at h
    · simp [rejected] at h; aesop
    · simp only [Res.trace_after, List.mem_append, List.mem_singleton] at h
      rcases h with h | h
      · exact Or.inl h
      · rcases mem_audit_body_trace h with h | h | h
        · exact Or.inr (Or.inl h)
        · exact Or.inr (Or.inr (Or.inl h))
        · exact Or.inr (Or.inr (Or.inr h))

theorem mem_del_body_trace {env : Env} {admin : Bool} {u id : String} {e : Event}
    (h : e ∈ (del_body env admin u id).trace) :
    e = .sqlite3_exec (del_sql u id) ∨
      e = .sqlite3_exec (audit_sql env.now admin u "del" id) ∨
      e = .sqlite3_close ∨ ∃ x, e = .out x := by
  unfold del_body at h
  split_ifs at h
  · simp at h; aesop
  · split at h
    · simp [rejected] at h; aesop
    · simp only [Res.trace_after, List.mem_append, List.mem_singleton] at h
      rcases h with h | h
      · exact Or.inl h
      · rcases mem_audit_body_trace h with h | h | h
        · exact Or.inr (Or.inl h)
        · exact Or.inr (Or.inr (Or.inl h))
        · exact Or.inr (Or.inr (Or.inr h))

theorem mem_list_body_trace {env : Env} {u : String} {e : Event}
    (h : e ∈ (list_body env u).trace) :
    e = .sqlite3_prepare_v2 (list_sql u) ∨ e = .sqlite3_close ∨ (∃ x, e = .out x) ∨
      ∃ r, e = .row r := by
  unfold list_body at h
  split_ifs at h <;> simp at h <;> aesop

theorem mem_list_users_trace {env : Env} {admin : Bool} {e : Event}
    (h : e ∈ (list_users env admin).trace) :
    (admin = true ∧ e = .sqlite3_prepare_v2 LIST_USER_SQL) ∨ e = .sqlite3_close ∨
      ∃ x, e = .out x := by
  cases admin with
  | false => rw [list_users_user] at h; simp at h; aesop
  | true =>
    rw [list_users_admin] at h
    split_ifs at h <;> simp at h <;> aesop

theorem mem_dispatch_trace {env : Env} {argv : List String} {u : String} {s : Session}
    {e : Event} (h : e ∈ (dispatch env argv u s).trace) :
    e = .sqlite3_close ∨ (∃ x, e = .out x) ∨ (∃ r, e = .row r) ∨
    (arg argv s.i = "--add" ∧
      (e = .sqlite3_exec (add_sql env.now (target argv u s) (operand argv s 0)
          (operand argv s 1)) ∨
        e = .sqlite3_exec (audit_sql env.now s.admin (target argv u s) "add"
          (operand argv s 0 ++ " " ++ operand argv s 1)))) ∨
    (arg argv s.i = "--del" ∧
      (e = .sqlite3_exec (del_sql (target argv u s) (operand argv s 0)) ∨
        e = .sqlite3_exec (audit_sql env.now s.admin (target argv u s) "del"
          (operand argv s 0)))) ∨
    (arg argv s.i = "--list" ∧ e = .sqlite3_prepare_v2 (list_sql (target argv u s))) ∨
    (arg argv s.i = "--listusers" ∧ s.admin = true ∧
      e = .sqlite3_prepare_v2 LIST_USER_SQL) := by
  by_cases h1 : arg argv s.i = "--add"
  · rw [dispatch_add env argv u s h1] at h
    by_cases hn : s.i + 2 + (if s.admin then 1 else 0) ≥ argv.length
    · rw [if_pos hn] at h
      simp at h
      exact Or.inr (Or.inl ⟨_, h⟩)
    · rw [if_neg hn] at h
      rcases mem_add_body_trace h with h | h | h | h
      · exact Or.inr (Or.inr (Or.inr (Or.inl ⟨h1, Or.inl h⟩)))
      · exact Or.inr (Or.inr (Or.inr (Or.inl ⟨h1, Or.inr h⟩)))
      · exact Or.inl h
      · exact Or.inr (Or.inl h)
  · by_cases h2 : arg argv s.i = "--list"
    · rw [dispatch_list env argv u s h2] at h
      by_cases hn : s.admin = true ∧ s.i + 1 ≥ argv.length
      · rw [if_pos hn] at h
        simp at h
        exact Or.inr (Or.inl ⟨_, h⟩)
      · rw [if_neg hn] at h
        rcases mem_list_body_trace h with h | h | h | h
        · exact Or.inr (Or.inr (Or.inr (Or.inr (Or.inr (Or.inl ⟨h2, h⟩)))))
        · exact Or.inl h
        · exact Or.inr (Or.inl h)
        · exact Or.inr (Or.inr (Or.inl h))
    · by_cases h3 : arg argv s.i = "--del"
      · rw [dispatch_del env argv u s h3] at h
        by_cases hn : s.i + 1 + (if s.admin then 1 else 0) ≥ argv.length
        · rw [if_pos hn] at h
          simp at h
          exact Or.inr (Or.inl ⟨_, h⟩)
        · rw [if_neg hn] at h
          rcases mem_del_body_trace h with h | h | h | h
          · exact Or.inr (Or.inr (Or.inr (Or.inr (Or.inl ⟨h3, Or.inl h⟩))))
          · exact Or.inr (Or.inr (Or.inr (Or.inr (Or.inl ⟨h3, Or.inr h⟩))))
          · exact Or.inl h
          · exact Or.inr (Or.inl h)
      · by_cases h4 : arg argv s.i = "--listusers"
        · rw [dispatch_listusers env argv u s h4] at h
          rcases mem_list_users_trace h with ⟨ha, h⟩ | h | h
          · exact Or.inr (Or.inr (Or.inr (Or.inr (Or.inr (Or.inr ⟨h4, ha, h⟩)))))
          · exact Or.inl h
          · exact Or.inr (Or.inl h)
        · rw [dispatch_unknown env argv u s h1 h2 h3 h4] at h
          simp at h
          exact Or.inr (Or.inl ⟨_, h⟩)

/-- Where an event of `main` comes from. -/
theorem mem_main_trace {env : Env} {prog : String} {args : List String} {e : Event}
    (h : e ∈ (main env prog args).trace) :
    (help_found (prog :: args) = true ∧ e ∈ usage_events prog) ∨
    (help_found (prog :: args) = false ∧
      (e = .setuid ∨ e = .gets ∨ e = .sqlite3_close ∨ (∃ x, e = .out x) ∨
        ∃ s tr0, (admin_body env (prog :: args)).bind (db_body (prog :: args)) = .ok s tr0 ∧
          s.i < (prog :: args).length ∧
          (e ∈ (open_body env s.db_filename).trace ∨
            e ∈ (dispatch env (prog :: args) env.pw_name s).trace))) := by
  rw [main_eq] at h
  cases hh : help_found (prog :: args) with
  | true =>
    rw [hh, if_pos rfl] at h
    exact Or.inl ⟨rfl, h⟩
  | false =>
    rw [hh, if_neg (by decide)] at h
    refine Or.inr ⟨rfl, ?_⟩
    simp only [Res.trace_after, List.singleton_append, List.mem_cons] at h
    rcases h with h | h
    · exact Or.inl h
    · rcases Res.mem_trace_bind h with h | ⟨s, tr0, hs, h⟩
      · rcases mem_session_trace h with h | h
        · exact Or.inr (Or.inl h)
        · exact Or.inr (Or.inr (Or.inr (Or.inl h)))
      · rw [main_command_eq] at h
        by_cases hi : s.i < (prog :: args).length
        · rw [if_pos hi] at h
          rcases Res.mem_trace_bind h with h | ⟨_, _, _, h⟩
          · exact Or.inr (Or.inr (Or.inr (Or.inr ⟨s, tr0, hs, hi, Or.inl h⟩)))
          · rcases Res.mem_trace_bind h with h | ⟨_, _, _, h⟩
            · exact Or.inr (Or.inr (Or.inr (Or.inr ⟨s, tr0, hs, hi, Or.inr h⟩)))
            · simp at h
              exact Or.inr (Or.inr (Or.inl h))
        · rw [if_neg hi] at h
          simp at h
          exact Or.inr (Or.inr (Or.inr (Or.inl ⟨_, h⟩)))

theorem session_user (env : Env) (argv : List String) (h1 : arg argv 1 ≠ "--admin")
    (h2 : arg argv 1 ≠ "--db") :
    (admin_body env argv).bind (db_body argv) = .ok ⟨false, 1, DB_FILENAME⟩ [] := by
  unfold admin_body
  rw [if_neg h1, Res.ok_nil_bind]
  unfold db_body
  rw [if_neg (fun h => h2 h.2)]

theorem open_body_stop {env : Env} {f : String} {o : Outcome} {tr : List Event}
    (h : open_body env f = .stop o tr) : o = .exit (-1) := by
  unfold open_body at h
  cases ha : env.access f <;> cases ho : env.sqlite3_open f <;>
    cases ht : env.sqlite3_exec TEST_EXP_SQL <;> cases hp : env.fopen f <;>
    simp [ha, ho, ht, hp] at h <;> exact h.1.symm

/-- The run of `main` once the options are accepted. -/
theorem main_of_session (env : Env) (prog : String) (args : List String) (s : Session)
    (tr0 : List Event) (hh : help_found (prog :: args) = false)
    (hs : (admin_body env (prog :: args)).bind (db_body (prog :: args)) = .ok s tr0) :
    main env prog args =
      (main_command env (prog :: args) env.pw_name s).after (.setuid :: tr0) := by
  rw [main_eq, hh, if_neg (by decide), hs, Res.ok_bind_after]
  cases main_command env (prog :: args) env.pw_name s <;> simp

theorem main_no_command (env : Env) (prog : String) (args : List String) (s : Session)
    (tr0 : List Event) (hh : help_found (prog :: args) = false)
    (hs : (admin_body env (prog :: args)).bind (db_body (prog :: args)) = .ok s tr0)
    (hi : ¬ s.i < (prog :: args).length) :
    main env prog args =
      .stop (.exit (-1)) (.setuid :: tr0 ++ [.out "Error: no command supplied\n"]) := by
  rw [main_of_session env prog args s tr0 hh hs, main_command_eq, if_neg hi]
  rfl

theorem main_open_failed (env : Env) (prog : String) (args : List String) (s : Session)
    (tr0 : List Event) (hh : help_found (prog :: args) = false)
    (hs : (admin_body env (prog :: args)).bind (db_body (prog :: args)) = .ok s tr0)
    (hi : s.i < (prog :: args).length) (o : Outcome) (tr : List Event)
    (ho : open_body env s.db_filename = .stop o tr) :
    main env prog args = .stop (.exit (-1)) (.setuid :: tr0 ++ tr) := by
  rw [main_of_session env prog args s tr0 hh hs, main_command_eq, if_pos hi, ho,
    open_body_stop ho]
  rfl

/-- In a run where the database opens and the handler stops, `main` stops the
same way. -/
theorem main_handler_stopped (env : Env) (prog : String) (args : List String) (s : Session)
    (tr0 : List Event) (hh : help_found (prog :: args) = false)
    (hs : (admin_body env (prog :: args)).bind (db_body (prog :: args)) = .ok s tr0)
    (hi : s.i < (prog :: args).length)
    (ho : open_body env s.db_filename = .ok () (open_events s.db_filename))
    (o : Outcome) (tr : List Event)
    (hd : dispatch env (prog :: args) env.pw_name s = .stop o tr) :
    main env prog args = .stop o (.setuid :: tr0 ++ open_events s.db_filename ++ tr) := by
  rw [main_run env prog args s tr0 hh hs hi ho, hd]
  rfl

/-- A wrong password that fits the buffer is refused. -/
theorem wrong_password_rejected (env : Env) (prog : String) (args : List String)
    (line : String) (hh : help_found (prog :: args) = false)
    (ha : arg (prog :: args) 1 = "--admin") (hl : env.stdin = some line)
    (hfit : strlen line + 1 ≤ PW_BUF_LEN) (hne : line ≠ ADMIN_PW) :
    main env prog args =
      .stop (.exit (-1)) (.setuid :: prompt_events ++ [.out "Error: incorrect password\n"]) := by
  rw [main_eq, hh, if_neg (by decide)]
  unfold admin_body
  rw [if_pos ha, hl]
  simp only [hfit, hne, if_true, if_false, Res.stop_bind, Res.after_stop]
  rfl

/-- The admin flag of a session is set only after `--admin` and the right
password. -/
theorem admin_needs_password (env : Env) (argv : List String) (s : Session)
    (tr : List Event) (h : main_session env argv = .ok s tr) (hs : s.admin = true) :
    arg argv 1 = "--admin" ∧ env.stdin = some ADMIN_PW := by
  rw [main_session_eq] at h
  rcases session_cases h with ⟨_, _, rfl, _⟩ | ⟨ha, hp, _⟩
  · simp at hs
  · exact ⟨ha, hp⟩

/-! ## The claims -/

theorem help_found_iff (prog : String) (args : List String) :
    help_found (prog :: args) = true ↔ (args = [] ∨ "--help" ∈ args) := by
  unfold help_found
  cases args with
  | nil => simp
  | cons a as =>
    simp only [List.length_cons, List.drop_succ_cons, List.drop_zero, Bool.or_eq_true,
      beq_iff_eq, List.any_eq_true, reduceCtorEq, false_or]
    constructor
    · rintro (h | ⟨x, hx, rfl⟩)
      · omega
      · exact hx
    · intro h
      exact Or.inr ⟨_, h, rfl⟩

/-- C9. With no argument besides the program name, or with `--help` at any
position after it, `main` prints the usage text and exits 0, and nothing else
happens (no prompt, no `gets`, no database call); otherwise `help` returns
without any output and without exiting. -/
theorem help_exits_first (env : Env) (prog : String) (args : List String) :
    ((args = [] ∨ "--help" ∈ args) →
      main env prog args = .stop (.exit 0) (usage_events prog)) ∧
    (¬ (args = [] ∨ "--help" ∈ args) → help (prog :: args) = .ok () []) := by
  constructor
  · intro h
    rw [main_eq, if_pos ((help_found_iff prog args).2 h)]
  · intro h
    have hf : help_found (prog :: args) = false := by
      cases hb : help_found (prog :: args) with
      | false => rfl
      | true => exact absurd ((help_found_iff prog args).1 hb) h
    rw [help_eq, hf]
    rfl

/-- Witness of C9: `expense --admin --help` and `expense --list` . -/
theorem help_exits_first_witness :
    main env_ok "expense" ["--admin", "--help"] = .stop (.exit 0) (usage_events "expense") ∧
    help ["expense", "--list"] = .ok () [] :=
  ⟨(help_exits_first env_ok "expense" ["--admin", "--help"]).1 (Or.inr (by decide)),
   (help_exits_first env_ok "expense" ["--list"]).2 (by decide)⟩

/-- C10. Each statement builder guards its `MAX_QUERY_LEN`-byte buffer: when
the length check of `audit_log`, `add_expense`, `del_expense` or
`list_expenses` passes, the text `sprintf` renders (for every 64-bit
timestamp, also the `"%s %s"` and `"%s"` audit arguments) fits with its
terminator; when the check fails the call ends in `error` (exit -1) and the
builder has executed no statement. -/
theorem builders_respect_buffer (env : Env) (t : Int) (ht : -2 ^ 63 ≤ t ∧ t < 2 ^ 63)
    (admin : Bool) (i : Nat) (argv : List String) (u c a : String) :
    (¬ audit_too_long u c a →
      fits_query_buffer AUDIT_LOG_SQL
        [.long t, .int (if admin then 1 else 0), .str u, .str c, .str a]) ∧
    (audit_too_long u c a →
      audit_log env t admin u c a =
        .stop (.exit (-1)) [.out "Error: sorry, the audit log entry is too long\n"]) ∧
    (¬ add_too_long u c a →
      fits_query_buffer ADD_EXP_SQL [.long t, .str u, .str c, .str a] ∧
      fits_query_buffer "%s %s" [.str c, .str a]) ∧
    (i + 1 < argv.length → add_too_long u (arg argv i) (arg argv (i + 1)) →
      add_expense env i argv u false =
        .stop (.exit (-1)) [.out "Error: sorry, the length of your expense is too long\n"]) ∧
    (i + 2 < argv.length → add_too_long (arg argv i) (arg argv (i + 1)) (arg argv (i + 2)) →
      add_expense env i argv u true =
        .stop (.exit (-1)) [.out "Error: sorry, the length of your expense is too long\n"]) ∧
    (¬ del_too_long u a →
      fits_query_buffer DEL_EXP_SQL [.str u, .str a] ∧ fits_query_buffer "%s" [.str a]) ∧
    (i < argv.length → del_too_long u (arg argv i) →
      del_expense env i argv u false =
        .stop (.exit (-1)) [.out
          "Error: sorry, the length of your expense (username + description + amount) is too long\n"]) ∧
    (i + 1 < argv.length → del_too_long (arg argv i) (arg argv (i + 1)) →
      del_expense env i argv u true =
        .stop (.exit (-1)) [.out
          "Error: sorry, the length of your expense (username + description + amount) is too long\n"]) ∧
    (¬ list_too_long u → fits_query_buffer LIST_EXP_SQL [.str u]) ∧
    (list_too_long u →
      list_expenses env i argv u false =
        .stop (.exit (-1)) [.out "Error: sorry, the length of your username is too long\n"]) ∧
    (i < argv.length → list_too_long (arg argv i) →
      list_expenses env i argv u true =
        .stop (.exit (-1)) [.out "Error: sorry, the length of your username is too long\n"]) := by
  refine ⟨?_, ?_, ?_, ?_, ?_, ?_, ?_, ?_, ?_, ?_, ?_⟩
  · intro h
    exact ⟨_, format_audit t _ u c a, audit_fits t ht admin u c a h⟩
  · intro h
    rw [audit_log_eq env t ht, audit_body, if_pos h]
  · intro h
    exact ⟨⟨_, format_add t u c a, add_fits t ht u c a h⟩,
      ⟨_, format_pair c a, pair_fits u c a h⟩⟩
  · intro hi h
    rw [add_expense_user, if_neg (by omega), add_body, if_pos h]
  · intro hi h
    rw [add_expense_admin, if_neg (by omega), add_body, if_pos h]
  · intro h
    exact ⟨⟨_, format_del u a, del_fits u a h⟩, ⟨_, format_single a, id_fits u a h⟩⟩
  · intro hi h
    rw [del_expense_user, if_neg (by omega), del_body, if_pos h]
  · intro hi h
    rw [del_expense_admin, if_neg (by omega), del_body, if_pos h]
  · intro h
    exact ⟨_, format_list u, list_fits u h⟩
  · intro h
    rw [list_expenses_user, list_body, if_pos h]
  · intro hi h
    rw [list_expenses_admin, if_neg (by omega), list_body, if_pos h]

theorem strlen_long_desc : strlen long_desc = 1920 :=
  List.length_replicate 1920 'a'

/-- Witness of C10: the audit entry of `--add coffee 3.50` fits; the audit
entry for a description of 1920 characters is rejected. -/
theorem builders_respect_buffer_witness :
    fits_query_buffer AUDIT_LOG_SQL
      [.long 1700000000, .int 0, .str "alice", .str "add", .str "coffee 3.50"] ∧
    audit_log env_ok 1700000000 false "alice" "add" long_desc =
      .stop (.exit (-1)) [.out "Error: sorry, the audit log entry is too long\n"] :=
  ⟨(builders_respect_buffer env_ok 1700000000 (by decide) false 2
      ["expense", "--add", "coffee", "3.50"] "alice" "add" "coffee 3.50").1 (by decide),
   (builders_respect_buffer env_ok 1700000000 (by decide) false 2
      ["expense", "--add", "coffee", "3.50"] "alice" "add" long_desc).2.1
      (by unfold audit_too_long; rw [strlen_long_desc]; decide)⟩

/-- C1 at its failing input: as `alice`, `expense --add <1920 characters> 1`
with an engine that accepts every statement executes the INSERT on `expenses`
and then ends in the fatal error of `audit_log`: no audit statement is
executed and the exit status is -1. -/
theorem add_without_audit_entry :
    main env_ok "expense" ["--add", long_desc, "1"] =
      .stop (.exit (-1)) ([.setuid] ++ open_events DB_FILENAME ++
        [.sqlite3_exec (add_sql 1700000000 "alice" long_desc "1"),
          .out "Error: sorry, the audit log entry is too long\n"]) := by
  have hd : dispatch env_ok ["expense", "--add", long_desc, "1"] "alice" ⟨false, 1, DB_FILENAME⟩ =
      add_expense env_ok 2 ["expense", "--add", long_desc, "1"] "alice" false :=
    if_pos (by decide)
  have h1 : ¬ add_too_long "alice" long_desc "1" := by
    unfold add_too_long
    rw [strlen_long_desc]
    decide
  have h3 : audit_too_long "alice" "add" (long_desc ++ " " ++ "1") := by
    unfold audit_too_long
    have : strlen (long_desc ++ " " ++ "1") = 1922 := by
      have := strlen_long_desc
      simp only [strlen, String.length_append] at *
      rw [this]
      rfl
    rw [this]
    decide
  have hb := add_body_unlogged env_ok false "alice" long_desc "1" h1 rfl h3
  rw [main_run env_ok "expense" ["--add", long_desc, "1"] ⟨false, 1, DB_FILENAME⟩ [] (by decide)
    (by decide) (by decide) rfl]
  show ((dispatch env_ok ["expense", "--add", long_desc, "1"] "alice" ⟨false, 1, DB_FILENAME⟩).bind
    fun _ => Res.ok (0 : Int) [Event.sqlite3_close]).after _ = _
  rw [hd, add_expense_user, if_neg (by decide)]
  show ((add_body env_ok false "alice" long_desc "1").bind _).after _ = _
  rw [hb]
  rfl

/-- C7 is false as stated: a non-admin `--add` followed by three tokens is
not refused; the first two are used and both statements are executed. -/
theorem add_accepts_extra_tokens :
    main env_ok "expense" ["--add", "coffee", "3.50", "extra"] =
      .ok 0 ([.setuid] ++ open_events DB_FILENAME ++
        [.sqlite3_exec (add_sql 1700000000 "alice" "coffee" "3.50"),
          .sqlite3_exec (audit_sql 1700000000 false "alice" "add" "coffee 3.50"),
          .sqlite3_close]) := by
  have hd : dispatch env_ok ["expense", "--add", "coffee", "3.50", "extra"] "alice"
      ⟨false, 1, DB_FILENAME⟩ =
      add_expense env_ok 2 ["expense", "--add", "coffee", "3.50", "extra"] "alice" false :=
    if_pos (by decide)
  have hb := add_body_logged env_ok false "alice" "coffee" "3.50" (by decide) rfl (by decide) rfl
  rw [main_run env_ok "expense" ["--add", "coffee", "3.50", "extra"] ⟨false, 1, DB_FILENAME⟩ []
    (by decide) (by decide) (by decide) rfl]
  show ((dispatch env_ok ["expense", "--add", "coffee", "3.50", "extra"] "alice"
    ⟨false, 1, DB_FILENAME⟩).bind fun _ => Res.ok (0 : Int) [Event.sqlite3_close]).after _ = _
  rw [hd, add_expense_user, if_neg (by decide)]
  show ((add_body env_ok false "alice" "coffee" "3.50").bind _).after _ = _
  rw [hb]
  rfl

/-- C7, amended. `add_expense` needs at least two tokens after `--add` for a
non-admin and at least three for an admin, and ignores any further token.
With fewer it ends in the error "insufficient arguments for the --add command"
and executes nothing.  With enough tokens it ends in the error "sorry, the
length of your expense is too long" and executes nothing when its length check
rejects the strings, and otherwise its first action is the INSERT built from
the first two (three) tokens. -/
theorem add_requires_tokens (env : Env) (i : Nat) (argv : List String) (username : String) :
    (i + 1 ≥ argv.length →
      add_expense env i argv username false =
        .stop (.exit (-1)) [.out "Error: insufficient arguments for the --add command\n"]) ∧
    (i + 2 ≥ argv.length →
      add_expense env i argv username true =
        .stop (.exit (-1)) [.out "Error: insufficient arguments for the --add command\n"]) ∧
    (i + 1 < argv.length → add_too_long username (arg argv i) (arg argv (i + 1)) →
      add_expense env i argv username false =
        .stop (.exit (-1)) [.out "Error: sorry, the length of your expense is too long\n"]) ∧
    (i + 2 < argv.length → add_too_long (arg argv i) (arg argv (i + 1)) (arg argv (i + 2)) →
      add_expense env i argv username true =
        .stop (.exit (-1)) [.out "Error: sorry, the length of your expense is too long\n"]) ∧
    (i + 1 < argv.length → ¬ add_too_long username (arg argv i) (arg argv (i + 1)) →
      ∃ tl, (add_expense env i argv username false).trace =
        .sqlite3_exec (add_sql env.now username (arg argv i) (arg argv (i + 1))) :: tl) ∧
    (i + 2 < argv.length → ¬ add_too_long (arg argv i) (arg argv (i + 1)) (arg argv (i + 2)) →
      ∃ tl, (add_expense env i argv username true).trace =
        .sqlite3_exec (add_sql env.now (arg argv i) (arg argv (i + 1)) (arg argv (i + 2)))
          :: tl) := by
  refine ⟨?_, ?_, ?_, ?_, ?_, ?_⟩
  · intro hi
    rw [add_expense_user, if_pos hi]
  · intro hi
    rw [add_expense_admin, if_pos hi]
  · intro hi h
    rw [add_expense_user, if_neg (by omega), add_body, if_pos h]
  · intro hi h
    rw [add_expense_admin, if_neg (by omega), add_body, if_pos h]
  · intro hi h
    rw [add_expense_user, if_neg (by omega)]
    exact add_body_starts_with_insert env false _ _ _ h
  · intro hi h
    rw [add_expense_admin, if_neg (by omega)]
    exact add_body_starts_with_insert env true _ _ _ h

/-- Witness of C7 amended: one token is refused, three tokens reach the
INSERT built from the first two. -/
theorem add_requires_tokens_witness :
    add_expense env_ok 2 ["expense", "--add", "coffee"] "alice" false =
      .stop (.exit (-1)) [.out "Error: insufficient arguments for the --add command\n"] ∧
    ∃ tl, (add_expense env_ok 2 ["expense", "--add", "coffee", "3.50", "extra"] "alice"
        false).trace =
      .sqlite3_exec (add_sql env_ok.now "alice"
        (arg ["expense", "--add", "coffee", "3.50", "extra"] 2)
        (arg ["expense", "--add", "coffee", "3.50", "extra"] (2 + 1))) :: tl :=
  ⟨(add_requires_tokens env_ok 2 ["expense", "--add", "coffee"] "alice").1 (by decide),
   (add_requires_tokens env_ok 2 ["expense", "--add", "coffee", "3.50", "extra"] "alice").2.2.2.2.1
     (by decide) (by decide)⟩

/-- C5 at its failing input: `expense --admin --list bob` with a password
line of 256 characters. `gets` writes 257 bytes into `buf[256]`, so the run is
undefined behaviour instead of the error "incorrect password". -/
theorem long_password_is_undefined :
    main env_longline "expense" ["--admin", "--list", "bob"] =
      .stop .undefined (.setuid :: prompt_events) := by
  have ha : admin_body env_longline ["expense", "--admin", "--list", "bob"] =
      .stop .undefined prompt_events := by
    unfold admin_body
    rw [if_pos (by decide)]
    show (if strlen (String.mk (List.replicate 256 'A')) + 1 ≤ PW_BUF_LEN then _ else _) = _
    rw [if_neg]
    show ¬ ((List.replicate 256 'A').length + 1 ≤ 256)
    rw [List.length_replicate]
    decide
  rw [main_eq, if_neg (by decide), ha]
  rfl

/-- C6. When `main` returns 0 and the command is `--add`, the statements
executed after the test query are the INSERT on `expenses` and then the audit
INSERT with the same timestamp, the session's admin flag, the target username,
"add", and description, a space, amount (`add_trace`); when the command is
`--del` they are the DELETE and then the audit INSERT with the admin flag, the
target username, "del" and the id string (`del_trace`).  The target username
is the account name for a non-admin and the first argument after the command
for an admin (`target`). -/
theorem audit_entry_matches (env : Env) (prog : String) (args : List String)
    (tr : List Event) (h : main env prog args = .ok 0 tr) :
    ∃ s tr0, main_session env (prog :: args) = .ok s tr0 ∧
      (arg (prog :: args) s.i = "--add" → tr = add_trace env (prog :: args) s tr0) ∧
      (arg (prog :: args) s.i = "--del" → tr = del_trace env (prog :: args) s tr0) := by
  obtain ⟨_, s, tr0, t1, hs, _, _, hd, _, htr⟩ := main_ok_parts h
  refine ⟨s, tr0, by rw [main_session_eq]; exact hs, ?_, ?_⟩
  · intro hc
    rw [dispatch_add env _ _ s hc] at hd
    by_cases hn : s.i + 2 + (if s.admin then 1 else 0) ≥ (prog :: args).length
    · rw [if_pos hn] at hd
      simp at hd
    · rw [if_neg hn] at hd
      rw [htr, add_body_ok hd]
      simp [add_trace]
  · intro hc
    rw [dispatch_del env _ _ s hc] at hd
    by_cases hn : s.i + 1 + (if s.admin then 1 else 0) ≥ (prog :: args).length
    · rw [if_pos hn] at hd
      simp at hd
    · rw [if_neg hn] at hd
      rw [htr, del_body_ok hd]
      simp [del_trace]

/-- Witness of C6: as `alice`, `expense --add coffee 3.50` returns 0 with
the events below, and so does `expense --admin --del bob 4` with the right
password; the audit statements are (admin 0, "alice", "add", "coffee 3.50")
and (admin 1, "bob", "del", "4"), with the texts of `audit_sql_examples`. -/
theorem audit_entry_matches_witness :
    (add_trace env_ok ["expense", "--add", "coffee", "3.50"] ⟨false, 1, DB_FILENAME⟩ [] =
        [.setuid, .access DB_FILENAME, .sqlite3_open DB_FILENAME, .sqlite3_exec TEST_EXP_SQL,
          .sqlite3_exec (add_sql 1700000000 "alice" "coffee" "3.50"),
          .sqlite3_exec (audit_sql 1700000000 false "alice" "add" "coffee 3.50"),
          .sqlite3_close] ∧
      ∃ s tr0, main_session env_ok ["expense", "--add", "coffee", "3.50"] = .ok s tr0 ∧
        (arg ["expense", "--add", "coffee", "3.50"] s.i = "--add" →
          add_trace env_ok ["expense", "--add", "coffee", "3.50"] ⟨false, 1, DB_FILENAME⟩ [] =
            add_trace env_ok ["expense", "--add", "coffee", "3.50"] s tr0) ∧
        (arg ["expense", "--add", "coffee", "3.50"] s.i = "--del" →
          add_trace env_ok ["expense", "--add", "coffee", "3.50"] ⟨false, 1, DB_FILENAME⟩ [] =
            del_trace env_ok ["expense", "--add", "coffee", "3.50"] s tr0)) ∧
    (del_trace env_ok ["expense", "--admin", "--del", "bob", "4"] ⟨true, 2, DB_FILENAME⟩
          prompt_events =
        [.setuid, .out "Enter the administrator password: ", .gets, .access DB_FILENAME,
          .sqlite3_open DB_FILENAME, .sqlite3_exec TEST_EXP_SQL,
          .sqlite3_exec (del_sql "bob" "4"),
          .sqlite3_exec (audit_sql 1700000000 true "bob" "del" "4"),
          .sqlite3_close] ∧
      ∃ s tr0, main_session env_ok ["expense", "--admin", "--del", "bob", "4"] = .ok s tr0 ∧
        (arg ["expense", "--admin", "--del", "bob", "4"] s.i = "--add" →
          del_trace env_ok ["expense", "--admin", "--del", "bob", "4"] ⟨true, 2, DB_FILENAME⟩
              prompt_events =
            add_trace env_ok ["expense", "--admin", "--del", "bob", "4"] s tr0) ∧
        (arg ["expense", "--admin", "--del", "bob", "4"] s.i = "--del" →
          del_trace env_ok ["expense", "--admin", "--del", "bob", "4"] ⟨true, 2, DB_FILENAME⟩
              prompt_events =
            del_trace env_ok ["expense", "--admin", "--del", "bob", "4"] s tr0)) :=
  ⟨⟨rfl, audit_entry_matches env_ok "expense" ["--add", "coffee", "3.50"] _
      (main_add_logged env_ok "expense" ["--add", "coffee", "3.50"] ⟨false, 1, DB_FILENAME⟩ []
        (by decide) (by decide) rfl (by decide) (by decide) (by decide) rfl (by decide) rfl)⟩,
   ⟨rfl, audit_entry_matches env_ok "expense" ["--admin", "--del", "bob", "4"] _
      (main_del_logged env_ok "expense" ["--admin", "--del", "bob", "4"]
        ⟨true, 2, DB_FILENAME⟩ prompt_events
        (by decide) (by decide) rfl (by decide) (by decide) (by decide) rfl (by decide) rfl)⟩⟩

/-- C4 is false as stated: when the database file does not exist, a
non-admin `expense --listusers` fails in `open_db` with "cannot open the
specified database file", not with the permission error. -/
theorem listusers_fails_in_open_db :
    main env_nofile "expense" ["--listusers"] =
        .stop (.exit (-1)) [.setuid, .access DB_FILENAME,
          .out "Error: cannot open the specified database file\n"] ∧
      Event.out "Error: you must have administrator access to run this command\n" ∉
        (main env_nofile "expense" ["--listusers"]).trace := by
  have h : main env_nofile "expense" ["--listusers"] =
      .stop (.exit (-1)) [.setuid, .access DB_FILENAME,
        .out "Error: cannot open the specified database file\n"] :=
    main_open_failed env_nofile "expense" ["--listusers"] ⟨false, 1, DB_FILENAME⟩ []
      (by decide) (by decide) (by decide) (.exit (-1)) _ rfl
  rw [h]
  exact ⟨rfl, by decide⟩

/-- C4, amended. When help does not fire and the first argument is
`--listusers` (so the invocation is not admin), `main` exits with status -1
and never prepares a query; `open_db` runs first: when it succeeds the error
is "you must have administrator access to run this command", and when it
fails the run ends there with the events of `open_db`. -/
theorem listusers_refused (env : Env) (prog : String) (args : List String)
    (hh : help_found (prog :: args) = false) (hc : arg (prog :: args) 1 = "--listusers") :
    (∃ tr, main env prog args = .stop (.exit (-1)) tr) ∧
    (∀ sql, Event.sqlite3_prepare_v2 sql ∉ (main env prog args).trace) ∧
    (open_db env DB_FILENAME = .ok () (open_events DB_FILENAME) →
      main env prog args =
        .stop (.exit (-1)) (.setuid :: open_events DB_FILENAME ++
          [.out "Error: you must have administrator access to run this command\n"])) ∧
    (∀ o tr, open_db env DB_FILENAME = .stop o tr →
      main env prog args = .stop (.exit (-1)) (.setuid :: tr)) := by
  have h1 : arg (prog :: args) 1 ≠ "--admin" := by rw [hc]; decide
  have h2 : arg (prog :: args) 1 ≠ "--db" := by rw [hc]; decide
  have hi : 1 < (prog :: args).length := lt_length_of_arg_ne (by rw [hc]; decide)
  have hs := session_user env (prog :: args) h1 h2
  have hd : dispatch env (prog :: args) env.pw_name ⟨false, 1, DB_FILENAME⟩ =
      .stop (.exit (-1))
        [.out "Error: you must have administrator access to run this command\n"] := by
    rw [dispatch_listusers env _ _ _ hc, list_users_user]
  have hok : open_db env DB_FILENAME = .ok () (open_events DB_FILENAME) →
      main env prog args =
        .stop (.exit (-1)) (.setuid :: open_events DB_FILENAME ++
          [.out "Error: you must have administrator access to run this command\n"]) := by
    intro ho
    rw [open_db_eq] at ho
    rw [main_handler_stopped env prog args _ [] hh hs hi ho _ _ hd]
    rfl
  have hstop : ∀ o tr, open_db env DB_FILENAME = .stop o tr →
      main env prog args = .stop (.exit (-1)) (.setuid :: tr) := by
    intro o tr ho
    rw [open_db_eq] at ho
    rw [main_open_failed env prog args _ [] hh hs hi o tr ho]
    rfl
  refine ⟨?_, ?_, hok, hstop⟩
  · cases ho : open_db env DB_FILENAME with
    | ok x t =>
      have ht : t = open_events DB_FILENAME := open_body_ok (by rw [← open_db_eq]; exact ho)
      subst ht
      exact ⟨_, hok ho⟩
    | stop o t => exact ⟨_, hstop o t ho⟩
  · intro sql hmem
    rcases mem_main_trace hmem with ⟨hf, _⟩ | ⟨_, h | h | h | ⟨x, h⟩ | ⟨s, tr0, hs', _, h | h⟩⟩
    · rw [hh] at hf
      exact absurd hf (by decide)
    · exact absurd h (by simp)
    · exact absurd h (by simp)
    · exact absurd h (by simp)
    · exact absurd h (by simp)
    · rcases mem_open_body_trace h with h | h | h | h | h | h | ⟨x, h⟩ <;>
        exact absurd h (by simp)
    · rw [hs] at hs'
      simp only [Res.ok.injEq] at hs'
      rw [← hs'.1, hd] at h
      simp at h

/-- Witness of C4 amended: as `alice`, `expense --listusers` with a database
that opens. -/
theorem listusers_refused_witness :
    main env_ok "expense" ["--listusers"] =
      .stop (.exit (-1)) (.setuid :: open_events DB_FILENAME ++
        [.out "Error: you must have administrator access to run this command\n"]) :=
  (listusers_refused env_ok "expense" ["--listusers"] (by decide) (by decide)).2.2.1
    ((open_db_eq env_ok DB_FILENAME).trans rfl)

/-- C8 is false as stated: `expense --bogus` opens the database (`access`,
`sqlite3_open`, the test query) before the token is rejected. -/
theorem unknown_command_opens_database :
    main env_ok "expense" ["--bogus"] =
        .stop (.exit (-1)) [.setuid, .access DB_FILENAME, .sqlite3_open DB_FILENAME,
          .sqlite3_exec TEST_EXP_SQL, .out "Error: unknown command supplied\n"] ∧
      Event.sqlite3_open DB_FILENAME ∈ (main env_ok "expense" ["--bogus"]).trace := by
  have h : main env_ok "expense" ["--bogus"] =
      .stop (.exit (-1)) [.setuid, .access DB_FILENAME, .sqlite3_open DB_FILENAME,
        .sqlite3_exec TEST_EXP_SQL, .out "Error: unknown command supplied\n"] :=
    main_handler_stopped env_ok "expense" ["--bogus"] ⟨false, 1, DB_FILENAME⟩ []
      (by decide) (by decide) (by decide) rfl (.exit (-1)) _
      (dispatch_unknown env_ok _ _ _ (by decide) (by decide) (by decide) (by decide))
  rw [h]
  exact ⟨rfl, by decide⟩

/-- C8, amended. The database is opened (`access`, `sqlite3_open`) only when
help does not fire, the options are accepted and some token follows them,
whatever that token is, and the file is the session's path.  When no token
follows, `main` fails with "no command supplied", exit -1, without opening
the database.  When the token is none of the four commands, `main` exits with
status -1 after `open_db` has run: with "unknown command supplied" when the
database opened. -/
theorem database_opened_for_any_token (env : Env) (prog : String) (args : List String) :
    (∀ f, (Event.access f ∈ (main env prog args).trace ∨
        Event.sqlite3_open f ∈ (main env prog args).trace) →
      help_found (prog :: args) = false ∧
      ∃ s tr0, main_session env (prog :: args) = .ok s tr0 ∧ s.i < (prog :: args).length ∧
        f = s.db_filename) ∧
    (help_found (prog :: args) = false →
      ∀ s tr0, main_session env (prog :: args) = .ok s tr0 → ¬ s.i < (prog :: args).length →
        main env prog args =
          .stop (.exit (-1)) (.setuid :: tr0 ++ [.out "Error: no command supplied\n"])) ∧
    (help_found (prog :: args) = false →
      ∀ s tr0, main_session env (prog :: args) = .ok s tr0 → s.i < (prog :: args).length →
        arg (prog :: args) s.i ≠ "--add" → arg (prog :: args) s.i ≠ "--list" →
        arg (prog :: args) s.i ≠ "--del" → arg (prog :: args) s.i ≠ "--listusers" →
        (∃ tr, main env prog args = .stop (.exit (-1)) tr) ∧
        (open_db env s.db_filename = .ok () (open_events s.db_filename) →
          main env prog args =
            .stop (.exit (-1)) (.setuid :: tr0 ++ open_events s.db_filename ++
              [.out "Error: unknown command supplied\n"]))) := by
  refine ⟨?_, ?_, ?_⟩
  · intro f hmem
    have key : ∀ e, e ∈ (main env prog args).trace → (e = .access f ∨ e = .sqlite3_open f) →
        help_found (prog :: args) = false ∧
        ∃ s tr0, main_session env (prog :: args) = .ok s tr0 ∧ s.i < (prog :: args).length ∧
          f = s.db_filename := by
      intro e he hf
      rcases mem_main_trace he with ⟨_, hu⟩ | ⟨hh, h | h | h | ⟨x, h⟩ | ⟨s, tr0, hs, hi, h | h⟩⟩
      · simp only [usage_events, List.mem_cons, List.mem_singleton, List.not_mem_nil,
          or_false] at hu
        rcases hu with hu | hu | hu <;> rcases hf with hf | hf <;> rw [hf] at hu <;>
          exact absurd hu (by simp)
      · rcases hf with hf | hf <;> rw [hf] at h <;> exact absurd h (by simp)
      · rcases hf with hf | hf <;> rw [hf] at h <;> exact absurd h (by simp)
      · rcases hf with hf | hf <;> rw [hf] at h <;> exact absurd h (by simp)
      · rcases hf with hf | hf <;> rw [hf] at h <;> exact absurd h (by simp)
      · refine ⟨hh, s, tr0, by rw [main_session_eq]; exact hs, hi, ?_⟩
        rcases mem_open_body_trace h with h | h | h | h | h | h | ⟨x, h⟩ <;>
          rcases hf with hf | hf <;> rw [hf] at h <;> simp at h <;> exact h
      · exfalso
        rcases mem_dispatch_trace h with h | ⟨x, h⟩ | ⟨r, h⟩ | ⟨_, h | h⟩ | ⟨_, h | h⟩ |
          ⟨_, h⟩ | ⟨_, _, h⟩ <;>
          rcases hf with hf | hf <;> rw [hf] at h <;> exact absurd h (by simp)
    rcases hmem with h | h
    · exact key _ h (Or.inl rfl)
    · exact key _ h (Or.inr rfl)
  · intro hh s tr0 hs hi
    rw [main_session_eq] at hs
    exact main_no_command env prog args s tr0 hh hs hi
  · intro hh s tr0 hs hi h1 h2 h3 h4
    rw [main_session_eq] at hs
    have hd := dispatch_unknown env (prog :: args) env.pw_name s h1 h2 h3 h4
    have hok : open_db env s.db_filename = .ok () (open_events s.db_filename) →
        main env prog args =
          .stop (.exit (-1)) (.setuid :: tr0 ++ open_events s.db_filename ++
            [.out "Error: unknown command supplied\n"]) := by
      intro ho
      rw [open_db_eq] at ho
      exact main_handler_stopped env prog args s tr0 hh hs hi ho _ _ hd
    refine ⟨?_, hok⟩
    cases ho : open_db env s.db_filename with
    | ok x t =>
      have ht : t = open_events s.db_filename := open_body_ok (by rw [← open_db_eq]; exact ho)
      subst ht
      exact ⟨_, hok ho⟩
    | stop o t =>
      rw [open_db_eq] at ho
      exact ⟨_, main_open_failed env prog args s tr0 hh hs hi o t ho⟩

/-- Witness of C8 amended: `expense --admin` with the right password has no
command and opens nothing; `expense --bogus` opens the database and is then
refused. -/
theorem database_opened_for_any_token_witness :
    main env_ok "expense" ["--admin"] =
        .stop (.exit (-1)) (.setuid :: prompt_events ++
          [.out "Error: no command supplied\n"]) ∧
      main env_ok "expense" ["--bogus"] =
        .stop (.exit (-1)) (.setuid :: [] ++ open_events DB_FILENAME ++
          [.out "Error: unknown command supplied\n"]) :=
  ⟨(database_opened_for_any_token env_ok "expense" ["--admin"]).2.1 (by decide)
      ⟨true, 2, DB_FILENAME⟩ prompt_events
      ((main_session_eq env_ok ["expense", "--admin"]).trans (by decide)) (by decide),
   ((database_opened_for_any_token env_ok "expense" ["--bogus"]).2.2 (by decide)
      ⟨false, 1, DB_FILENAME⟩ []
      ((main_session_eq env_ok ["expense", "--bogus"]).trans (by decide)) (by decide)
      (by decide) (by decide) (by decide) (by decide)).2
      ((open_db_eq env_ok DB_FILENAME).trans rfl)⟩

end Expense
